import Mathlib

/-!
Verification of the layer-2 transaction-variant model (Arbitrum/Optimism
transaction flavors of a go-ethereum fork).

Embedding conventions:
* `*big.Int` fields are `Option β` where `β` is a type parameter of each
  structure: `Int` for the value-level model (a `none` is a nil pointer),
  and `Cell := Nat × Int` for the heap-aware model used to reason about
  the deep-copy protocol (`.1` is an allocation identifier, `.2` the value).
* `[]byte` fields are `δ`: `List Nat` for the value-level model and
  `Buf := Nat × List Nat` for the heap-aware model.
* `common.Address` / `common.Hash` values are `Nat` (their big-endian
  numeric value; 20 and 32 bytes respectively), `*common.Address` is
  `Option Nat`.
* `uint64` is `Nat`; Go functions that can panic (dereference of a nil
  `*big.Int`) return `Option _` / are settled under non-nil hypotheses.
-/

set_option maxRecDepth 20000

/-- One big-integer cell of the heap model: allocation id and value. -/
abbrev Cell : Type := Nat × Int

/-- One byte-buffer of the heap model: allocation id and contents. -/
abbrev Buf : Type := Nat × List Nat

/-- `k`-byte big-endian encoding of `n % 256^k` (zero-padded on the left). -/
def beBytes : Nat → Nat → List Nat
  | 0, _ => []
  | k + 1, n => beBytes k (n / 256) ++ [n % 256]

/-- `math.U256Bytes`: 32-byte big-endian two's-complement encoding of a
big integer reduced modulo `2^256`. -/
def u256Bytes (i : Int) : List Nat :=
  beBytes 32 (i % ((2 : Int) ^ 256)).toNat

theorem beBytes_length (k n : Nat) : (beBytes k n).length = k := by
  induction k generalizing n with
  | zero => rfl
  | succ k ih => simp [beBytes, ih]

theorem u256Bytes_length (i : Int) : (u256Bytes i).length = 32 := by
  simp [u256Bytes, beBytes_length]

/-- `ArbitrumSubmitRetryableTx` (source struct; see the embedding
conventions in the file header for `β`, `δ`). -/
structure ArbitrumSubmitRetryableTx (β δ : Type) where
  ChainId : Option β
  RequestId : Nat
  From : Nat
  L1BaseFee : Option β
  DepositValue : Option β
  GasFeeCap : Option β
  Gas : Nat
  RetryTo : Option Nat
  RetryValue : Option β
  Beneficiary : Nat
  MaxSubmissionFee : Option β
  FeeRefundAddr : Nat
  RetryData : δ

/-- `ArbitrumSubmitRetryableTx.data`: the derived ABI call payload.  A
nil big-integer field makes the Go code panic in `math.U256Bytes`, hence
the `Option` result. -/
def ArbitrumSubmitRetryableTx.data
    (tx : ArbitrumSubmitRetryableTx Int (List Nat)) : Option (List Nat) := do
  let l1 ← tx.L1BaseFee
  let dv ← tx.DepositValue
  let rv ← tx.RetryValue
  let cap ← tx.GasFeeCap
  let msf ← tx.MaxSubmissionFee
  let retryTo := tx.RetryTo.getD 0
  let data1 :=
    beBytes 32 tx.RequestId ++ u256Bytes l1 ++ u256Bytes dv ++ u256Bytes rv ++
    u256Bytes cap ++ u256Bytes (Int.ofNat tx.Gas) ++ u256Bytes msf ++
    List.replicate 12 0 ++ beBytes 20 tx.FeeRefundAddr ++
    List.replicate 12 0 ++ beBytes 20 tx.Beneficiary ++
    List.replicate 12 0 ++ beBytes 20 retryTo
  let offset := data1.length + 32
  let data2 := data1 ++ u256Bytes (Int.ofNat offset) ++
    u256Bytes (Int.ofNat tx.RetryData.length)
  let data3 := data2 ++ tx.RetryData
  let extra := tx.RetryData.length % 32
  let data4 := if extra > 0 then data3 ++ List.replicate (32 - extra) 0 else data3
  pure ([0xc9, 0xf9, 0x5d, 0x32] ++ data4)

/-- The call-data layout exactly as the specification describes it:
selector, seven numeric words, three right-aligned address words, an
offset word equal to the running argument-block length plus 32, a length
word, then the payload padded with zeros to the next 32-byte boundary. -/
def submitRetryableCallDataSpec (requestId : Nat)
    (l1BaseFee depositValue retryValue gasFeeCap : Int) (gas : Nat)
    (maxSubmissionFee : Int) (feeRefundAddr beneficiary : Nat)
    (retryTo : Option Nat) (retryData : List Nat) : List Nat :=
  let args :=
    beBytes 32 requestId ++ u256Bytes l1BaseFee ++ u256Bytes depositValue ++
    u256Bytes retryValue ++ u256Bytes gasFeeCap ++ u256Bytes (Int.ofNat gas) ++
    u256Bytes maxSubmissionFee ++
    List.replicate 12 0 ++ beBytes 20 feeRefundAddr ++
    List.replicate 12 0 ++ beBytes 20 beneficiary ++
    List.replicate 12 0 ++ beBytes 20 (retryTo.getD 0)
  let args2 := args ++ u256Bytes (Int.ofNat (args.length + 32)) ++
    u256Bytes (Int.ofNat retryData.length)
  [0xc9, 0xf9, 0x5d, 0x32] ++ args2 ++ retryData ++
    List.replicate ((32 - retryData.length % 32) % 32) 0

/-- C1.  For every submit-retryable transaction whose big-integer fields
are non-nil, `data()` returns exactly the byte string the specification
describes: the selector `0xc9f95d32`, 32-byte big-endian words for the
request id, L1 base fee, deposit value, retry value, fee cap, widened gas
limit and max submission fee, three 12-zero-padded 20-byte address words
(fee-refund, beneficiary, retry-to-or-zero), the offset word (argument
bytes so far plus 32), the payload length word, and the payload padded to
a 32-byte boundary. -/
theorem submitRetryable_data_matches_spec
    (tx : ArbitrumSubmitRetryableTx Int (List Nat))
    (l1 dv rv cap msf : Int)
    (h1 : tx.L1BaseFee = some l1) (h2 : tx.DepositValue = some dv)
    (h3 : tx.RetryValue = some rv) (h4 : tx.GasFeeCap = some cap)
    (h5 : tx.MaxSubmissionFee = some msf) :
    tx.data = some (submitRetryableCallDataSpec tx.RequestId l1 dv rv cap
      tx.Gas msf tx.FeeRefundAddr tx.Beneficiary tx.RetryTo tx.RetryData) := by
  simp only [ArbitrumSubmitRetryableTx.data, submitRetryableCallDataSpec,
    h1, h2, h3, h4, h5, Option.bind_some, Option.some_bind, pure]
  rcases Nat.eq_zero_or_pos (tx.RetryData.length % 32) with hz | hp
  · simp [hz, List.append_assoc]
  · have hne : tx.RetryData.length % 32 ≠ 0 := Nat.pos_iff_ne_zero.mp hp
    have hlt : tx.RetryData.length % 32 < 32 := Nat.mod_lt _ (by norm_num)
    have : (32 - tx.RetryData.length % 32) % 32 = 32 - tx.RetryData.length % 32 :=
      Nat.mod_eq_of_lt (by omega)
    simp [hp, this, List.append_assoc]

/-- Witness for C1 at a concrete transaction. -/
theorem submitRetryable_data_matches_spec_witness :
    (ArbitrumSubmitRetryableTx.data
      ⟨some 5, 1, 7, some 0, some 2, some 1, 21000, some 9, some 3, 4,
        some 0, 6, [0xaa]⟩ : Option (List Nat)) =
    some (submitRetryableCallDataSpec 1 0 2 3 1 21000 0 6 4 (some 9) [0xaa]) :=
  submitRetryable_data_matches_spec
    ⟨some 5, 1, 7, some 0, some 2, some 1, 21000, some 9, some 3, 4,
      some 0, 6, [0xaa]⟩ 0 2 3 1 0 rfl rfl rfl rfl rfl

/-- The concrete submit-retryable transaction of the spec's test vector:
request id `0x00..01`, zero L1 base fee, zero deposit/retry value, fee
cap 1, gas 21000, zero max submission fee, zero fee-refund address,
beneficiary and retry-to, empty retry payload. -/
def srExample : ArbitrumSubmitRetryableTx Int (List Nat) :=
  ⟨some 0, 1, 0, some 0, some 0, some 1, 21000, some 0, some 0, 0, some 0, 0, []⟩

/-- C2 counterexample.  The claim says `data()` on the example is the
selector followed by exactly 320 bytes; the argument block actually
holds 10 fixed words plus the offset and length words, 384 bytes. -/
theorem srExample_data_not_320_bytes :
    ¬ ∃ rest : List Nat,
      srExample.data = some ([0xc9, 0xf9, 0x5d, 0x32] ++ rest) ∧
      rest.length = 320 := by
  rintro ⟨rest, h, hl⟩
  have h388 : (srExample.data).map List.length = some 388 := by decide
  rw [h] at h388
  simp [hl] at h388

/-- C2 amended.  On the spec's example transaction, `data()` is the
4-byte selector followed by exactly 384 bytes — ten fixed 32-byte words
(request id 1, zero L1 base fee, zero deposit value, zero retry value,
fee cap 1, gas 21000, zero max submission fee, three zero-address
words), the offset word 352 and the zero length word — with no trailing
payload bytes. -/
theorem srExample_data_bytes :
    srExample.data = some ([0xc9, 0xf9, 0x5d, 0x32] ++
      beBytes 32 1 ++ beBytes 32 0 ++ beBytes 32 0 ++ beBytes 32 0 ++
      beBytes 32 1 ++ beBytes 32 21000 ++ beBytes 32 0 ++ beBytes 32 0 ++
      beBytes 32 0 ++ beBytes 32 0 ++ beBytes 32 352 ++ beBytes 32 0) ∧
    (srExample.data).map List.length = some (4 + 384) := by
  constructor <;> decide

/-- `DepositTx` (Optimism deposit; source struct). -/
structure DepositTx (β δ : Type) where
  SourceHash : Nat
  From : Nat
  To : Option Nat
  Mint : Option β
  Value : Option β
  Gas : Nat
  IsSystemTransaction : Bool
  Data : δ

/-- `depositTxWithNonce` (source struct embedding `DepositTx`). -/
structure depositTxWithNonce (β δ : Type) where
  toDepositTx : DepositTx β δ
  EffectiveNonce : Nat

/-- Modelled from the spec: the wrapped standard legacy transaction
(`LegacyTx` is declared outside src; only the fields the source reads
and writes are modelled — nonce, gas price, gas limit, optional
destination, value, payload and the signature triple). -/
structure LegacyTx (β δ : Type) where
  Nonce : Nat
  GasPrice : Option β
  Gas : Nat
  To : Option Nat
  Value : Option β
  Data : δ
  V : Option β
  R : Option β
  S : Option β

/-- `ArbitrumLegacyTxData` (source struct wrapping a `LegacyTx`). -/
structure ArbitrumLegacyTxData (β δ : Type) where
  LegacyTx : LegacyTx β δ
  HashOverride : Nat
  EffectiveGasPrice : Nat
  L1BlockNumber : Nat
  Sender : Option Nat

/-- `ArbitrumUnsignedTx` (source struct). -/
structure ArbitrumUnsignedTx (β δ : Type) where
  ChainId : Option β
  From : Nat
  Nonce : Nat
  GasFeeCap : Option β
  Gas : Nat
  To : Option Nat
  Value : Option β
  Data : δ

/-- `ArbitrumInternalTx` (source struct). -/
structure ArbitrumInternalTx (β δ : Type) where
  ChainId : Option β
  Data : δ

/-- `ArbitrumDepositTx` (source struct; its destination is a plain
address value, not an optional pointer). -/
structure ArbitrumDepositTx (β δ : Type) where
  ChainId : Option β
  L1RequestId : Nat
  From : Nat
  To : Nat
  Value : Option β

/-- `ArbitrumContractTx` (source struct). -/
structure ArbitrumContractTx (β δ : Type) where
  ChainId : Option β
  RequestId : Nat
  From : Nat
  GasFeeCap : Option β
  Gas : Nat
  To : Option Nat
  Value : Option β
  Data : δ

/-- `ArbitrumRetryTx` (source struct). -/
structure ArbitrumRetryTx (β δ : Type) where
  ChainId : Option β
  Nonce : Nat
  From : Nat
  GasFeeCap : Option β
  Gas : Nat
  To : Option Nat
  Value : Option β
  Data : δ
  TicketId : Nat
  RefundTo : Nat
  MaxRefund : Option β
  SubmissionFeeRefund : Option β

/-- The closed set of transaction variants (the Go `TxData` interface). -/
inductive TxData (β δ : Type) where
  | deposit : DepositTx β δ → TxData β δ
  | depositWithNonce : depositTxWithNonce β δ → TxData β δ
  | arbLegacy : ArbitrumLegacyTxData β δ → TxData β δ
  | arbUnsigned : ArbitrumUnsignedTx β δ → TxData β δ
  | arbInternal : ArbitrumInternalTx β δ → TxData β δ
  | arbDeposit : ArbitrumDepositTx β δ → TxData β δ
  | arbContract : ArbitrumContractTx β δ → TxData β δ
  | arbRetry : ArbitrumRetryTx β δ → TxData β δ
  | arbSubmitRetryable : ArbitrumSubmitRetryableTx β δ → TxData β δ

/-- Transaction type tag constants (source). -/
def ArbitrumDepositTxType : Nat := 0x64

def ArbitrumUnsignedTxType : Nat := 0x65

def ArbitrumContractTxType : Nat := 0x66

def ArbitrumRetryTxType : Nat := 0x68

def ArbitrumSubmitRetryableTxType : Nat := 0x69

def ArbitrumInternalTxType : Nat := 0x6A

def ArbitrumLegacyTxType : Nat := 0x78

def OPDepositTxType : Nat := 0x7e

/-- A `*common.Address` with its storage location made explicit: `loc`
identifies the pointed-to storage, `val` is the 20-byte address value. -/
structure AddrPtr where
  loc : Nat
  val : Nat
deriving DecidableEq

/-- The global `arbosAddress = common.HexToAddress("0xa4b05")`; its
storage lives at the reserved global location 0. -/
def arbosAddress : AddrPtr := ⟨0, 0xa4b05⟩

/-- The global `arbRetryableTxAddress = common.HexToAddress("0x6e")`;
its storage lives at the reserved global location 1. -/
def arbRetryableTxAddress : AddrPtr := ⟨1, 0x6e⟩

/-- The storage locations of the package-level address globals. -/
def globalAddressLocs : List Nat := [arbosAddress.loc, arbRetryableTxAddress.loc]

/-- `ArbitrumInternalTx.to` returns `&arbosAddress`: a pointer to the
package-level global itself. -/
def ArbitrumInternalTx.to {β δ : Type} (_tx : ArbitrumInternalTx β δ) :
    Option AddrPtr := some arbosAddress

/-- `ArbitrumSubmitRetryableTx.to` returns `&arbRetryableTxAddress`: a
pointer to the package-level global itself. -/
def ArbitrumSubmitRetryableTx.to {β δ : Type}
    (_tx : ArbitrumSubmitRetryableTx β δ) : Option AddrPtr :=
  some arbRetryableTxAddress

/-! Capability-interface accessors of the value-level model (`β = Int`,
`δ = List Nat`), translated method-for-method from the source.  `bigZero`,
`common.Big0`, `new(big.Int)` and `big.NewInt(0)` all denote a non-nil
zero big integer, i.e. `some 0`; a returned nil `*big.Int` is `none`. -/

def DepositTx.txType {β δ : Type} (_tx : DepositTx β δ) : Nat := OPDepositTxType

def DepositTx.chainID (_tx : DepositTx Int (List Nat)) : Option Int := some 0

def DepositTx.data (tx : DepositTx Int (List Nat)) : List Nat := tx.Data

def DepositTx.gas (tx : DepositTx Int (List Nat)) : Nat := tx.Gas

def DepositTx.gasFeeCap (_tx : DepositTx Int (List Nat)) : Option Int := some 0

def DepositTx.gasTipCap (_tx : DepositTx Int (List Nat)) : Option Int := some 0

def DepositTx.gasPrice (_tx : DepositTx Int (List Nat)) : Option Int := some 0

def DepositTx.value (tx : DepositTx Int (List Nat)) : Option Int := tx.Value

def DepositTx.nonce (_tx : DepositTx Int (List Nat)) : Nat := 0

def DepositTx.to (tx : DepositTx Int (List Nat)) : Option Nat := tx.To

def DepositTx.rawSignatureValues (_tx : DepositTx Int (List Nat)) :
    Option Int × Option Int × Option Int := (some 0, some 0, some 0)

def DepositTx.effectiveGasPrice (_tx : DepositTx Int (List Nat))
    (_baseFee : Option Int) : Option Int := some 0

/-- Modelled from the spec: the chain id a signed legacy transaction
derives from its `v` signature component (the derivation lives outside
src). -/
def deriveChainId (v : Int) : Int := if v = 27 ∨ v = 28 then 0 else (v - 35) / 2

def LegacyTx.chainID (tx : LegacyTx Int (List Nat)) : Option Int :=
  tx.V.map deriveChainId

def LegacyTx.data (tx : LegacyTx Int (List Nat)) : List Nat := tx.Data

def LegacyTx.gas (tx : LegacyTx Int (List Nat)) : Nat := tx.Gas

def LegacyTx.gasPrice (tx : LegacyTx Int (List Nat)) : Option Int := tx.GasPrice

def LegacyTx.gasTipCap (tx : LegacyTx Int (List Nat)) : Option Int := tx.GasPrice

def LegacyTx.gasFeeCap (tx : LegacyTx Int (List Nat)) : Option Int := tx.GasPrice

def LegacyTx.value (tx : LegacyTx Int (List Nat)) : Option Int := tx.Value

def LegacyTx.nonce (tx : LegacyTx Int (List Nat)) : Nat := tx.Nonce

def LegacyTx.to (tx : LegacyTx Int (List Nat)) : Option Nat := tx.To

def LegacyTx.rawSignatureValues (tx : LegacyTx Int (List Nat)) :
    Option Int × Option Int × Option Int := (tx.V, tx.R, tx.S)

def LegacyTx.effectiveGasPrice (tx : LegacyTx Int (List Nat))
    (_baseFee : Option Int) : Option Int := tx.GasPrice

def ArbitrumLegacyTxData.txType {β δ : Type} (_tx : ArbitrumLegacyTxData β δ) :
    Nat := ArbitrumLegacyTxType

def ArbitrumUnsignedTx.txType {β δ : Type} (_tx : ArbitrumUnsignedTx β δ) :
    Nat := ArbitrumUnsignedTxType

def ArbitrumUnsignedTx.chainID (tx : ArbitrumUnsignedTx Int (List Nat)) :
    Option Int := tx.ChainId

def ArbitrumUnsignedTx.data (tx : ArbitrumUnsignedTx Int (List Nat)) :
    List Nat := tx.Data

def ArbitrumUnsignedTx.gas (tx : ArbitrumUnsignedTx Int (List Nat)) : Nat := tx.Gas

def ArbitrumUnsignedTx.gasPrice (tx : ArbitrumUnsignedTx Int (List Nat)) :
    Option Int := tx.GasFeeCap

def ArbitrumUnsignedTx.gasTipCap (_tx : ArbitrumUnsignedTx Int (List Nat)) :
    Option Int := some 0

def ArbitrumUnsignedTx.gasFeeCap (tx : ArbitrumUnsignedTx Int (List Nat)) :
    Option Int := tx.GasFeeCap

def ArbitrumUnsignedTx.value (tx : ArbitrumUnsignedTx Int (List Nat)) :
    Option Int := tx.Value

def ArbitrumUnsignedTx.nonce (tx : ArbitrumUnsignedTx Int (List Nat)) : Nat :=
  tx.Nonce

def ArbitrumUnsignedTx.to (tx : ArbitrumUnsignedTx Int (List Nat)) :
    Option Nat := tx.To

def ArbitrumUnsignedTx.rawSignatureValues (_tx : ArbitrumUnsignedTx Int (List Nat)) :
    Option Int × Option Int × Option Int := (some 0, some 0, some 0)

def ArbitrumUnsignedTx.effectiveGasPrice (tx : ArbitrumUnsignedTx Int (List Nat))
    (baseFee : Option Int) : Option Int :=
  match baseFee with
  | none => tx.GasFeeCap
  | some b => some b

def ArbitrumInternalTx.txType {β δ : Type} (_tx : ArbitrumInternalTx β δ) :
    Nat := ArbitrumInternalTxType

def ArbitrumInternalTx.chainID (tx : ArbitrumInternalTx Int (List Nat)) :
    Option Int := tx.ChainId

def ArbitrumInternalTx.data (tx : ArbitrumInternalTx Int (List Nat)) :
    List Nat := tx.Data

def ArbitrumInternalTx.gas (_tx : ArbitrumInternalTx Int (List Nat)) : Nat := 0

def ArbitrumInternalTx.gasPrice (_tx : ArbitrumInternalTx Int (List Nat)) :
    Option Int := some 0

def ArbitrumInternalTx.gasTipCap (_tx : ArbitrumInternalTx Int (List Nat)) :
    Option Int := some 0

def ArbitrumInternalTx.gasFeeCap (_tx : ArbitrumInternalTx Int (List Nat)) :
    Option Int := some 0

def ArbitrumInternalTx.value (_tx : ArbitrumInternalTx Int (List Nat)) :
    Option Int := some 0

def ArbitrumInternalTx.nonce (_tx : ArbitrumInternalTx Int (List Nat)) : Nat := 0

def ArbitrumInternalTx.rawSignatureValues (_tx : ArbitrumInternalTx Int (List Nat)) :
    Option Int × Option Int × Option Int := (some 0, some 0, some 0)

def ArbitrumInternalTx.effectiveGasPrice (_tx : ArbitrumInternalTx Int (List Nat))
    (_baseFee : Option Int) : Option Int := some 0

def ArbitrumDepositTx.txType {β δ : Type} (_tx : ArbitrumDepositTx β δ) :
    Nat := ArbitrumDepositTxType

def ArbitrumDepositTx.chainID (tx : ArbitrumDepositTx Int (List Nat)) :
    Option Int := tx.ChainId

def ArbitrumDepositTx.data (_tx : ArbitrumDepositTx Int (List Nat)) :
    List Nat := []

def ArbitrumDepositTx.gas (_tx : ArbitrumDepositTx Int (List Nat)) : Nat := 0

def ArbitrumDepositTx.gasPrice (_tx : ArbitrumDepositTx Int (List Nat)) :
    Option Int := some 0

def ArbitrumDepositTx.gasTipCap (_tx : ArbitrumDepositTx Int (List Nat)) :
    Option Int := some 0

def ArbitrumDepositTx.gasFeeCap (_tx : ArbitrumDepositTx Int (List Nat)) :
    Option Int := some 0

def ArbitrumDepositTx.value (tx : ArbitrumDepositTx Int (List Nat)) :
    Option Int := tx.Value

def ArbitrumDepositTx.nonce (_tx : ArbitrumDepositTx Int (List Nat)) : Nat := 0

def ArbitrumDepositTx.to (tx : ArbitrumDepositTx Int (List Nat)) :
    Option Nat := some tx.To

def ArbitrumDepositTx.rawSignatureValues (_tx : ArbitrumDepositTx Int (List Nat)) :
    Option Int × Option Int × Option Int := (some 0, some 0, some 0)

def ArbitrumDepositTx.effectiveGasPrice (_tx : ArbitrumDepositTx Int (List Nat))
    (_baseFee : Option Int) : Option Int := some 0

def ArbitrumContractTx.txType {β δ : Type} (_tx : ArbitrumContractTx β δ) :
    Nat := ArbitrumContractTxType

def ArbitrumContractTx.chainID (tx : ArbitrumContractTx Int (List Nat)) :
    Option Int := tx.ChainId

def ArbitrumContractTx.data (tx : ArbitrumContractTx Int (List Nat)) :
    List Nat := tx.Data

def ArbitrumContractTx.gas (tx : ArbitrumContractTx Int (List Nat)) : Nat := tx.Gas

def ArbitrumContractTx.gasPrice (tx : ArbitrumContractTx Int (List Nat)) :
    Option Int := tx.GasFeeCap

def ArbitrumContractTx.gasTipCap (_tx : ArbitrumContractTx Int (List Nat)) :
    Option Int := some 0

def ArbitrumContractTx.gasFeeCap (tx : ArbitrumContractTx Int (List Nat)) :
    Option Int := tx.GasFeeCap

def ArbitrumContractTx.value (tx : ArbitrumContractTx Int (List Nat)) :
    Option Int := tx.Value

def ArbitrumContractTx.nonce (_tx : ArbitrumContractTx Int (List Nat)) : Nat := 0

def ArbitrumContractTx.to (tx : ArbitrumContractTx Int (List Nat)) :
    Option Nat := tx.To

def ArbitrumContractTx.rawSignatureValues (_tx : ArbitrumContractTx Int (List Nat)) :
    Option Int × Option Int × Option Int := (some 0, some 0, some 0)

def ArbitrumContractTx.effectiveGasPrice (tx : ArbitrumContractTx Int (List Nat))
    (baseFee : Option Int) : Option Int :=
  match baseFee with
  | none => tx.GasFeeCap
  | some b => some b

def ArbitrumRetryTx.txType {β δ : Type} (_tx : ArbitrumRetryTx β δ) :
    Nat := ArbitrumRetryTxType

def ArbitrumRetryTx.chainID (tx : ArbitrumRetryTx Int (List Nat)) :
    Option Int := tx.ChainId

def ArbitrumRetryTx.data (tx : ArbitrumRetryTx Int (List Nat)) : List Nat := tx.Data

def ArbitrumRetryTx.gas (tx : ArbitrumRetryTx Int (List Nat)) : Nat := tx.Gas

def ArbitrumRetryTx.gasPrice (tx : ArbitrumRetryTx Int (List Nat)) :
    Option Int := tx.GasFeeCap

def ArbitrumRetryTx.gasTipCap (_tx : ArbitrumRetryTx Int (List Nat)) :
    Option Int := some 0

def ArbitrumRetryTx.gasFeeCap (tx : ArbitrumRetryTx Int (List Nat)) :
    Option Int := tx.GasFeeCap

def ArbitrumRetryTx.value (tx : ArbitrumRetryTx Int (List Nat)) :
    Option Int := tx.Value

def ArbitrumRetryTx.nonce (tx : ArbitrumRetryTx Int (List Nat)) : Nat := tx.Nonce

def ArbitrumRetryTx.to (tx : ArbitrumRetryTx Int (List Nat)) : Option Nat := tx.To

def ArbitrumRetryTx.rawSignatureValues (_tx : ArbitrumRetryTx Int (List Nat)) :
    Option Int × Option Int × Option Int := (some 0, some 0, some 0)

def ArbitrumRetryTx.effectiveGasPrice (tx : ArbitrumRetryTx Int (List Nat))
    (baseFee : Option Int) : Option Int :=
  match baseFee with
  | none => tx.GasFeeCap
  | some b => some b

def ArbitrumSubmitRetryableTx.txType {β δ : Type}
    (_tx : ArbitrumSubmitRetryableTx β δ) : Nat := ArbitrumSubmitRetryableTxType

def ArbitrumSubmitRetryableTx.chainID (tx : ArbitrumSubmitRetryableTx Int (List Nat)) :
    Option Int := tx.ChainId

def ArbitrumSubmitRetryableTx.gas (tx : ArbitrumSubmitRetryableTx Int (List Nat)) :
    Nat := tx.Gas

def ArbitrumSubmitRetryableTx.gasPrice (tx : ArbitrumSubmitRetryableTx Int (List Nat)) :
    Option Int := tx.GasFeeCap

def ArbitrumSubmitRetryableTx.gasTipCap (_tx : ArbitrumSubmitRetryableTx Int (List Nat)) :
    Option Int := some 0

def ArbitrumSubmitRetryableTx.gasFeeCap (tx : ArbitrumSubmitRetryableTx Int (List Nat)) :
    Option Int := tx.GasFeeCap

def ArbitrumSubmitRetryableTx.value (_tx : ArbitrumSubmitRetryableTx Int (List Nat)) :
    Option Int := some 0

def ArbitrumSubmitRetryableTx.nonce (_tx : ArbitrumSubmitRetryableTx Int (List Nat)) :
    Nat := 0

def ArbitrumSubmitRetryableTx.rawSignatureValues
    (_tx : ArbitrumSubmitRetryableTx Int (List Nat)) :
    Option Int × Option Int × Option Int := (some 0, some 0, some 0)

def ArbitrumSubmitRetryableTx.effectiveGasPrice
    (tx : ArbitrumSubmitRetryableTx Int (List Nat)) (baseFee : Option Int) :
    Option Int :=
  match baseFee with
  | none => tx.GasFeeCap
  | some b => some b

/-- C5.  `effectiveGasPrice` returns zero on the three feeless variants
for every supplied base fee (present or absent); on the four fee-market
variants it returns the variant's fee cap when the base fee is absent
and the base fee itself when it is present. -/
theorem effectiveGasPrice_spec (baseFee : Option Int) :
    (∀ (tx : DepositTx Int (List Nat)), tx.effectiveGasPrice baseFee = some 0) ∧
    (∀ (tx : ArbitrumDepositTx Int (List Nat)),
      tx.effectiveGasPrice baseFee = some 0) ∧
    (∀ (tx : ArbitrumInternalTx Int (List Nat)),
      tx.effectiveGasPrice baseFee = some 0) ∧
    (∀ (tx : ArbitrumUnsignedTx Int (List Nat)) (c : Int),
      tx.GasFeeCap = some c → tx.effectiveGasPrice none = some c) ∧
    (∀ (tx : ArbitrumUnsignedTx Int (List Nat)) (b : Int),
      tx.effectiveGasPrice (some b) = some b) ∧
    (∀ (tx : ArbitrumContractTx Int (List Nat)) (c : Int),
      tx.GasFeeCap = some c → tx.effectiveGasPrice none = some c) ∧
    (∀ (tx : ArbitrumContractTx Int (List Nat)) (b : Int),
      tx.effectiveGasPrice (some b) = some b) ∧
    (∀ (tx : ArbitrumRetryTx Int (List Nat)) (c : Int),
      tx.GasFeeCap = some c → tx.effectiveGasPrice none = some c) ∧
    (∀ (tx : ArbitrumRetryTx Int (List Nat)) (b : Int),
      tx.effectiveGasPrice (some b) = some b) ∧
    (∀ (tx : ArbitrumSubmitRetryableTx Int (List Nat)) (c : Int),
      tx.GasFeeCap = some c → tx.effectiveGasPrice none = some c) ∧
    (∀ (tx : ArbitrumSubmitRetryableTx Int (List Nat)) (b : Int),
      tx.effectiveGasPrice (some b) = some b) := by
  refine ⟨fun _ => rfl, fun _ => rfl, fun _ => rfl, ?_, fun _ _ => rfl, ?_,
    fun _ _ => rfl, ?_, fun _ _ => rfl, ?_, fun _ _ => rfl⟩ <;>
    intro tx c h <;>
    simp [ArbitrumUnsignedTx.effectiveGasPrice, ArbitrumContractTx.effectiveGasPrice,
      ArbitrumRetryTx.effectiveGasPrice, ArbitrumSubmitRetryableTx.effectiveGasPrice, h]

/-- Witness for C5: a fee-market variant with fee cap 7 under an absent
base fee. -/
theorem effectiveGasPrice_spec_witness :
    (⟨some 0, 0, 0, some 7, 21000, none, some 0, []⟩ :
      ArbitrumUnsignedTx Int (List Nat)).effectiveGasPrice none = some 7 :=
  (effectiveGasPrice_spec none).2.2.2.1
    ⟨some 0, 0, 0, some 7, 21000, none, some 0, []⟩ 7 rfl

/-- C9 counterexample.  The claim requires `to()` on the internal
variant to hand back an owned copy of the well-known address, sharing no
storage with the package-level global; the source returns a pointer to
the global `arbosAddress` itself (storage location 0). -/
theorem internalTx_to_is_not_owned_copy :
    ¬ ∀ (tx : ArbitrumInternalTx Int (List Nat)),
        ∃ p, tx.to = some p ∧ p.val = arbosAddress.val ∧
          p.loc ∉ globalAddressLocs := by
  intro h
  rcases h ⟨some 0, []⟩ with ⟨p, hp, _, hloc⟩
  have : p = arbosAddress := by
    simpa [ArbitrumInternalTx.to] using hp.symm
  subst this
  exact hloc (by simp [globalAddressLocs])

/-- C9 amended.  `to()` on the internal and submit-retryable variants
never returns nil: it returns a pointer to the well-known constant
destination (`arbosAddress`, resp. `arbRetryableTxAddress`), but that
pointer refers to the shared package-level global, not an owned copy —
every call yields the same storage location. -/
theorem to_fixed_address_never_nil :
    (∀ (tx : ArbitrumInternalTx Int (List Nat)), tx.to = some arbosAddress) ∧
    (∀ (tx : ArbitrumSubmitRetryableTx Int (List Nat)),
      tx.to = some arbRetryableTxAddress) :=
  ⟨fun _ => rfl, fun _ => rfl⟩

/-- C10.  On every submit-retryable transaction, whatever its stored
deposit and retry values, `value()` returns the non-nil zero big integer
and `nonce()` returns zero; the amounts are only observable through the
derived call data. -/
theorem submitRetryable_value_nonce_zero
    (tx : ArbitrumSubmitRetryableTx Int (List Nat)) :
    tx.value = some 0 ∧ tx.nonce = 0 :=
  ⟨rfl, rfl⟩

/-- Typed decode failures.  The source reports them as error strings;
only the kind and the offending field name matter to callers. -/
inductive DecodeErr where
  | missingField (name : String)
  | unexpectedFields
  | gasPriceMustBeZero
  | signatureMustBeZero
  | txTypeNotSupported
deriving DecidableEq, Repr

/-- The wire-level JSON object (`txJSON`): every field optional.  The
Go field `Type` is spelled `Type'` because `Type` is reserved in Lean;
`Hash` is a plain (always present, zero-defaulted) hash value. -/
structure txJSON where
  Type' : Nat
  ChainID : Option Int
  Nonce : Option Nat
  To : Option Nat
  Gas : Option Nat
  GasPrice : Option Int
  MaxPriorityFeePerGas : Option Int
  MaxFeePerGas : Option Int
  Value : Option Int
  Input : Option (List Nat)
  AccessList : Option Unit
  V : Option Int
  R : Option Int
  S : Option Int
  SourceHash : Option Nat
  Mint : Option Int
  IsSystemTx : Option Bool
  Hash : Nat
  From : Option Nat
  RequestId : Option Nat
  TicketId : Option Nat
  RefundTo : Option Nat
  MaxRefund : Option Int
  SubmissionFeeRefund : Option Int
  RetryTo : Option Nat
  RetryValue : Option Int
  RetryData : Option (List Nat)
  Beneficiary : Option Nat
  MaxSubmissionFee : Option Int
  DepositValue : Option Int
  L1BaseFee : Option Int
  EffectiveGasPrice : Option Nat
  L1BlockNumber : Option Nat

/-- An all-absent wire object (type tag 0, zero hash). -/
def emptyTxJSON : txJSON :=
  { Type' := 0, ChainID := none, Nonce := none, To := none, Gas := none,
    GasPrice := none, MaxPriorityFeePerGas := none, MaxFeePerGas := none,
    Value := none, Input := none, AccessList := none, V := none, R := none,
    S := none, SourceHash := none, Mint := none, IsSystemTx := none, Hash := 0,
    From := none, RequestId := none, TicketId := none, RefundTo := none,
    MaxRefund := none, SubmissionFeeRefund := none, RetryTo := none,
    RetryValue := none, RetryData := none, Beneficiary := none,
    MaxSubmissionFee := none, DepositValue := none, L1BaseFee := none,
    EffectiveGasPrice := none, L1BlockNumber := none }

/-- `if dec.X == nil { return missing-field error }` as one combinator:
the first absent required field aborts the decode. -/
def requireField {α : Type} (o : Option α) (name : String) : Except DecodeErr α :=
  match o with
  | some a => Except.ok a
  | none => Except.error (DecodeErr.missingField name)

@[simp] theorem requireField_some {α : Type} (a : α) (name : String) :
    requireField (some a) name = Except.ok a := rfl

@[simp] theorem requireField_none {α : Type} (name : String) :
    requireField (none : Option α) name = Except.error (DecodeErr.missingField name) := rfl

/-- A present-and-non-zero optional big integer (the forbidden-value
checks of the deposit decoder). -/
def presentNonZero (o : Option Int) : Bool :=
  match o with
  | none => false
  | some x => x != 0

@[simp] theorem presentNonZero_none : presentNonZero none = false := rfl

@[simp] theorem presentNonZero_some (x : Int) :
    presentNonZero (some x) = (x != 0) := rfl

/-- `Transaction.unmarshalOptimismJSON`: the Optimism-deposit JSON
decode routine, translated check-for-check from the source. -/
def unmarshalOptimismJSON (dec : txJSON) :
    Except DecodeErr (TxData Int (List Nat)) :=
  if dec.Type' = OPDepositTxType then
    if dec.AccessList.isSome || dec.MaxFeePerGas.isSome ||
        dec.MaxPriorityFeePerGas.isSome then
      Except.error DecodeErr.unexpectedFields
    else if presentNonZero dec.GasPrice then
      Except.error DecodeErr.gasPriceMustBeZero
    else if presentNonZero dec.V || presentNonZero dec.R ||
        presentNonZero dec.S then
      Except.error DecodeErr.signatureMustBeZero
    else do
      let gas ← requireField dec.Gas "gas"
      let vl ← requireField dec.Value "value"
      let inp ← requireField dec.Input "input"
      let fr ← requireField dec.From "from"
      let sh ← requireField dec.SourceHash "sourceHash"
      let itx : DepositTx Int (List Nat) :=
        { SourceHash := sh, From := fr, To := dec.To, Mint := dec.Mint,
          Value := some vl, Gas := gas,
          IsSystemTransaction := dec.IsSystemTx.getD false, Data := inp }
      match dec.Nonce with
      | some n => Except.ok (TxData.depositWithNonce ⟨itx, n⟩)
      | none => Except.ok (TxData.deposit itx)
  else Except.error DecodeErr.txTypeNotSupported

/-- `Transaction.unmarshalArbitrumJSON`, translated check-for-check from
the source.  `sanityCheckSignature` is defined outside src and is taken
as a parameter (`none` = the triple passes, `some e` = it fails with
`e`); the source calls it with `maybeProtected = true`. -/
def unmarshalArbitrumJSON
    (sanityCheckSignature : Int → Int → Int → Bool → Option DecodeErr)
    (dec : txJSON) : Except DecodeErr (TxData Int (List Nat)) :=
  if dec.Type' = ArbitrumLegacyTxType then do
    let nonce ← requireField dec.Nonce "nonce"
    let gp ← requireField dec.GasPrice "gasPrice"
    let gas ← requireField dec.Gas "gas"
    let vl ← requireField dec.Value "value"
    let inp ← requireField dec.Input "input"
    let v ← requireField dec.V "v"
    let r ← requireField dec.R "r"
    let s ← requireField dec.S "s"
    match (if v ≠ 0 ∨ r ≠ 0 ∨ s ≠ 0 then sanityCheckSignature v r s true
           else none) with
    | some e => Except.error e
    | none => do
      let egp ← requireField dec.EffectiveGasPrice "EffectiveGasPrice"
      let bn ← requireField dec.L1BlockNumber "L1BlockNumber"
      let ltx : LegacyTx Int (List Nat) :=
        { Nonce := nonce, GasPrice := some gp, Gas := gas, To := dec.To,
          Value := some vl, Data := inp, V := some v, R := some r, S := some s }
      Except.ok (TxData.arbLegacy
        { LegacyTx := ltx, HashOverride := dec.Hash, EffectiveGasPrice := egp,
          L1BlockNumber := bn, Sender := dec.From })
  else if dec.Type' = ArbitrumInternalTxType then do
    let cid ← requireField dec.ChainID "chainId"
    let inp ← requireField dec.Input "input"
    Except.ok (TxData.arbInternal { ChainId := some cid, Data := inp })
  else if dec.Type' = ArbitrumDepositTxType then do
    let cid ← requireField dec.ChainID "chainId"
    let rid ← requireField dec.RequestId "requestId"
    let toA ← requireField dec.To "to"
    let fr ← requireField dec.From "from"
    let vl ← requireField dec.Value "value"
    Except.ok (TxData.arbDeposit
      { ChainId := some cid, L1RequestId := rid, From := fr, To := toA,
        Value := some vl })
  else if dec.Type' = ArbitrumUnsignedTxType then do
    let cid ← requireField dec.ChainID "chainId"
    let fr ← requireField dec.From "from"
    let nonce ← requireField dec.Nonce "nonce"
    let cap ← requireField dec.MaxFeePerGas "maxFeePerGas"
    let gas ← requireField dec.Gas "gas"
    let vl ← requireField dec.Value "value"
    let inp ← requireField dec.Input "input"
    Except.ok (TxData.arbUnsigned
      { ChainId := some cid, From := fr, Nonce := nonce, GasFeeCap := some cap,
        Gas := gas, To := dec.To, Value := some vl, Data := inp })
  else if dec.Type' = ArbitrumContractTxType then do
    let cid ← requireField dec.ChainID "chainId"
    let rid ← requireField dec.RequestId "requestId"
    let fr ← requireField dec.From "from"
    let cap ← requireField dec.MaxFeePerGas "maxFeePerGas"
    let gas ← requireField dec.Gas "gas"
    let vl ← requireField dec.Value "value"
    let inp ← requireField dec.Input "input"
    Except.ok (TxData.arbContract
      { ChainId := some cid, RequestId := rid, From := fr, GasFeeCap := some cap,
        Gas := gas, To := dec.To, Value := some vl, Data := inp })
  else if dec.Type' = ArbitrumRetryTxType then do
    let cid ← requireField dec.ChainID "chainId"
    let nonce ← requireField dec.Nonce "nonce"
    let fr ← requireField dec.From "from"
    let cap ← requireField dec.MaxFeePerGas "maxFeePerGas"
    let gas ← requireField dec.Gas "gas"
    let vl ← requireField dec.Value "value"
    let inp ← requireField dec.Input "input"
    let tid ← requireField dec.TicketId "ticketId"
    let rfa ← requireField dec.RefundTo "refundTo"
    let mr ← requireField dec.MaxRefund "maxRefund"
    let sfr ← requireField dec.SubmissionFeeRefund "submissionFeeRefund"
    Except.ok (TxData.arbRetry
      { ChainId := some cid, Nonce := nonce, From := fr, GasFeeCap := some cap,
        Gas := gas, To := dec.To, Value := some vl, Data := inp, TicketId := tid,
        RefundTo := rfa, MaxRefund := some mr, SubmissionFeeRefund := some sfr })
  else if dec.Type' = ArbitrumSubmitRetryableTxType then do
    let cid ← requireField dec.ChainID "chainId"
    let rid ← requireField dec.RequestId "requestId"
    let fr ← requireField dec.From "from"
    let l1 ← requireField dec.L1BaseFee "l1BaseFee"
    let dv ← requireField dec.DepositValue "depositValue"
    let cap ← requireField dec.MaxFeePerGas "maxFeePerGas"
    let gas ← requireField dec.Gas "gas"
    let ben ← requireField dec.Beneficiary "beneficiary"
    let msf ← requireField dec.MaxSubmissionFee "maxSubmissionFee"
    let rfa ← requireField dec.RefundTo "refundTo"
    let rv ← requireField dec.RetryValue "retryValue"
    let rd ← requireField dec.RetryData "retryData"
    Except.ok (TxData.arbSubmitRetryable
      { ChainId := some cid, RequestId := rid, From := fr, L1BaseFee := some l1,
        DepositValue := some dv, GasFeeCap := some cap, Gas := gas,
        RetryTo := dec.RetryTo, RetryValue := some rv, Beneficiary := ben,
        MaxSubmissionFee := some msf, FeeRefundAddr := rfa, RetryData := rd })
  else Except.error DecodeErr.txTypeNotSupported

/-- Whether a decode produced a transaction. -/
def decodeOk (e : Except DecodeErr (TxData Int (List Nat))) : Bool :=
  match e with
  | Except.ok _ => true
  | Except.error _ => false

/-- C7.  In the Optimism-deposit decoder, any present fee-market field
(access list, max fee, max priority fee) aborts with the
unexpected-fields error; a present non-zero gas price or a present
non-zero signature component makes the decode fail; a present-but-zero
gas price or signature component is treated exactly like an absent
one. -/
theorem opDeposit_forbidden_and_zero_fields (dec : txJSON)
    (hty : dec.Type' = OPDepositTxType) :
    ((dec.AccessList.isSome ∨ dec.MaxFeePerGas.isSome ∨
        dec.MaxPriorityFeePerGas.isSome) →
      unmarshalOptimismJSON dec = Except.error DecodeErr.unexpectedFields) ∧
    (∀ g : Int, dec.GasPrice = some g → g ≠ 0 →
      decodeOk (unmarshalOptimismJSON dec) = false) ∧
    (∀ x : Int, (dec.V = some x ∨ dec.R = some x ∨ dec.S = some x) → x ≠ 0 →
      decodeOk (unmarshalOptimismJSON dec) = false) ∧
    (unmarshalOptimismJSON { dec with GasPrice := some 0 } =
      unmarshalOptimismJSON { dec with GasPrice := none }) ∧
    (unmarshalOptimismJSON { dec with V := some 0 } =
      unmarshalOptimismJSON { dec with V := none }) ∧
    (unmarshalOptimismJSON { dec with R := some 0 } =
      unmarshalOptimismJSON { dec with R := none }) ∧
    (unmarshalOptimismJSON { dec with S := some 0 } =
      unmarshalOptimismJSON { dec with S := none }) := by
  refine ⟨?_, ?_, ?_, ?_, ?_, ?_, ?_⟩
  · intro h
    rcases h with h | h | h <;> simp [unmarshalOptimismJSON, hty, h]
  · intro g hg hgne
    by_cases hA : (dec.AccessList.isSome || dec.MaxFeePerGas.isSome ||
        dec.MaxPriorityFeePerGas.isSome) = true
    · simp [unmarshalOptimismJSON, hty, hA, decodeOk]
    · simp only [Bool.not_eq_true] at hA
      simp [unmarshalOptimismJSON, hty, hA, hg, hgne, decodeOk]
  · intro x hx hxne
    by_cases hA : (dec.AccessList.isSome || dec.MaxFeePerGas.isSome ||
        dec.MaxPriorityFeePerGas.isSome) = true
    · simp [unmarshalOptimismJSON, hty, hA, decodeOk]
    · simp only [Bool.not_eq_true] at hA
      by_cases hG : presentNonZero dec.GasPrice = true
      · simp [unmarshalOptimismJSON, hty, hA, hG, decodeOk]
      · simp only [Bool.not_eq_true] at hG
        rcases hx with hx | hx | hx <;>
          simp [unmarshalOptimismJSON, hty, hA, hG, hx, hxne, decodeOk]
  · simp [unmarshalOptimismJSON]
  · simp [unmarshalOptimismJSON]
  · simp [unmarshalOptimismJSON]
  · simp [unmarshalOptimismJSON]

/-- Witness for C7: a deposit object carrying an access list is
rejected with the unexpected-fields error. -/
theorem opDeposit_forbidden_and_zero_fields_witness :
    unmarshalOptimismJSON
      { emptyTxJSON with Type' := OPDepositTxType, AccessList := some () } =
      Except.error DecodeErr.unexpectedFields :=
  (opDeposit_forbidden_and_zero_fields
    { emptyTxJSON with Type' := OPDepositTxType, AccessList := some () }
    rfl).1 (Or.inl rfl)

/-- The system-transaction flag of a decoded deposit-shaped variant. -/
def depositSystemFlag : TxData Int (List Nat) → Option Bool
  | TxData.deposit d => some d.IsSystemTransaction
  | TxData.depositWithNonce w => some w.toDepositTx.IsSystemTransaction
  | _ => none

/-- The destination field of a decoded deposit-shaped variant. -/
def depositToField : TxData Int (List Nat) → Option (Option Nat)
  | TxData.deposit d => some d.To
  | TxData.depositWithNonce w => some w.toDepositTx.To
  | _ => none

/-- An Arbitrum-deposit wire object carrying every field the claim calls
required (gas, value, payload, sender, request id) but no destination. -/
def arbDepositNoTo : txJSON :=
  { emptyTxJSON with
      Type' := ArbitrumDepositTxType, ChainID := some 0, RequestId := some 0,
      From := some 0, Value := some 0, Gas := some 21000, Input := some [] }

/-- C6 counterexample.  For the Arbitrum deposit variant the destination
is not optional: a wire object with gas, value, payload, sender and
request id all present but `to` absent is rejected with the
missing-field error for `to` (and gas/payload are not even consulted). -/
theorem arbDeposit_destination_required :
    arbDepositNoTo.Gas.isSome = true ∧ arbDepositNoTo.Value.isSome = true ∧
    arbDepositNoTo.Input.isSome = true ∧ arbDepositNoTo.From.isSome = true ∧
    arbDepositNoTo.RequestId.isSome = true ∧ arbDepositNoTo.To = none ∧
    unmarshalArbitrumJSON (fun _ _ _ _ => none) arbDepositNoTo =
      Except.error (DecodeErr.missingField "to") :=
  ⟨rfl, rfl, rfl, rfl, rfl, rfl, rfl⟩

@[simp] theorem except_bind_ok {α β : Type} (a : α)
    (f : α → Except DecodeErr β) : (Except.ok a >>= f) = f a := rfl

@[simp] theorem except_bind_error {α β : Type} (e : DecodeErr)
    (f : α → Except DecodeErr β) :
    ((Except.error e : Except DecodeErr α) >>= f) = Except.error e := rfl

/-- C6 amended.  Required-field behaviour of the two deposit-like
decoders.  For the Optimism deposit variant (once the forbidden-field
guards pass) the claim holds as stated: decode succeeds exactly when
gas, value, payload, sender and source hash are present, the first
missing one is reported as a missing-field error, the destination is
optional (its absence decodes to a nil destination, i.e. contract
creation) and an absent `isSystemTx` flag decodes to `false`.  For the
Arbitrum deposit variant the required fields are instead chain id,
request id, destination, sender and value: the destination is required,
and gas and payload fields do not exist. -/
theorem deposit_required_fields :
    (∀ dec : txJSON, dec.Type' = OPDepositTxType →
      (dec.AccessList.isSome || dec.MaxFeePerGas.isSome ||
        dec.MaxPriorityFeePerGas.isSome) = false →
      presentNonZero dec.GasPrice = false →
      presentNonZero dec.V = false → presentNonZero dec.R = false →
      presentNonZero dec.S = false →
      ((decodeOk (unmarshalOptimismJSON dec) = true ↔
        dec.Gas.isSome ∧ dec.Value.isSome ∧ dec.Input.isSome ∧
        dec.From.isSome ∧ dec.SourceHash.isSome) ∧
      (dec.Gas = none →
        unmarshalOptimismJSON dec =
          Except.error (DecodeErr.missingField "gas")) ∧
      (∀ g, dec.Gas = some g → dec.Value = none →
        unmarshalOptimismJSON dec =
          Except.error (DecodeErr.missingField "value")) ∧
      (∀ g vl, dec.Gas = some g → dec.Value = some vl → dec.Input = none →
        unmarshalOptimismJSON dec =
          Except.error (DecodeErr.missingField "input")) ∧
      (∀ g vl inp, dec.Gas = some g → dec.Value = some vl →
        dec.Input = some inp → dec.From = none →
        unmarshalOptimismJSON dec =
          Except.error (DecodeErr.missingField "from")) ∧
      (∀ g vl inp fr, dec.Gas = some g → dec.Value = some vl →
        dec.Input = some inp → dec.From = some fr → dec.SourceHash = none →
        unmarshalOptimismJSON dec =
          Except.error (DecodeErr.missingField "sourceHash")) ∧
      (∀ t, unmarshalOptimismJSON dec = Except.ok t → dec.IsSystemTx = none →
        depositSystemFlag t = some false) ∧
      (∀ t, unmarshalOptimismJSON dec = Except.ok t → dec.To = none →
        depositToField t = some none))) ∧
    (∀ (sanity : Int → Int → Int → Bool → Option DecodeErr) (dec : txJSON),
      dec.Type' = ArbitrumDepositTxType →
      ((decodeOk (unmarshalArbitrumJSON sanity dec) = true ↔
        dec.ChainID.isSome ∧ dec.RequestId.isSome ∧ dec.To.isSome ∧
        dec.From.isSome ∧ dec.Value.isSome) ∧
      (dec.ChainID = none →
        unmarshalArbitrumJSON sanity dec =
          Except.error (DecodeErr.missingField "chainId")) ∧
      (∀ c, dec.ChainID = some c → dec.RequestId = none →
        unmarshalArbitrumJSON sanity dec =
          Except.error (DecodeErr.missingField "requestId")) ∧
      (∀ c rid, dec.ChainID = some c → dec.RequestId = some rid →
        dec.To = none →
        unmarshalArbitrumJSON sanity dec =
          Except.error (DecodeErr.missingField "to")) ∧
      (∀ c rid toA, dec.ChainID = some c → dec.RequestId = some rid →
        dec.To = some toA → dec.From = none →
        unmarshalArbitrumJSON sanity dec =
          Except.error (DecodeErr.missingField "from")) ∧
      (∀ c rid toA fr, dec.ChainID = some c → dec.RequestId = some rid →
        dec.To = some toA → dec.From = some fr → dec.Value = none →
        unmarshalArbitrumJSON sanity dec =
          Except.error (DecodeErr.missingField "value")))) := by
  constructor
  · intro dec hty hA hG hV hR hS
    have hu : unmarshalOptimismJSON dec = (do
      let gas ← requireField dec.Gas "gas"
      let vl ← requireField dec.Value "value"
      let inp ← requireField dec.Input "input"
      let fr ← requireField dec.From "from"
      let sh ← requireField dec.SourceHash "sourceHash"
      let itx : DepositTx Int (List Nat) :=
        { SourceHash := sh, From := fr, To := dec.To, Mint := dec.Mint,
          Value := some vl, Gas := gas,
          IsSystemTransaction := dec.IsSystemTx.getD false, Data := inp }
      match dec.Nonce with
      | some n => Except.ok (TxData.depositWithNonce ⟨itx, n⟩)
      | none => Except.ok (TxData.deposit itx)) := by
      simp [unmarshalOptimismJSON, hty, hA, hG, hV, hR, hS]
    refine ⟨?_, ?_, ?_, ?_, ?_, ?_, ?_, ?_⟩
    · rw [hu]
      cases hgas : dec.Gas <;> cases hval : dec.Value <;>
        cases hinp : dec.Input <;> cases hfr : dec.From <;>
        cases hsh : dec.SourceHash <;> cases hn : dec.Nonce <;>
        simp [decodeOk]
    · intro h; rw [hu]; simp [h]
    · intro g hg h; rw [hu]; simp [hg, h]
    · intro g vl hg hv h; rw [hu]; simp [hg, hv, h]
    · intro g vl inp hg hv hi h; rw [hu]; simp [hg, hv, hi, h]
    · intro g vl inp fr hg hv hi hf h; rw [hu]; simp [hg, hv, hi, hf, h]
    · intro t ht hist
      rw [hu] at ht
      cases hgas : dec.Gas <;> cases hval : dec.Value <;>
        cases hinp : dec.Input <;> cases hfr : dec.From <;>
        cases hsh : dec.SourceHash <;> cases hn : dec.Nonce <;>
        simp [hgas, hval, hinp, hfr, hsh, hn] at ht <;>
        (subst ht; simp [depositSystemFlag, hist])
    · intro t ht hto
      rw [hu] at ht
      cases hgas : dec.Gas <;> cases hval : dec.Value <;>
        cases hinp : dec.Input <;> cases hfr : dec.From <;>
        cases hsh : dec.SourceHash <;> cases hn : dec.Nonce <;>
        simp [hgas, hval, hinp, hfr, hsh, hn] at ht <;>
        (subst ht; simp [depositToField, hto])
  · intro sanity dec hty
    have hu : unmarshalArbitrumJSON sanity dec = (do
      let cid ← requireField dec.ChainID "chainId"
      let rid ← requireField dec.RequestId "requestId"
      let toA ← requireField dec.To "to"
      let fr ← requireField dec.From "from"
      let vl ← requireField dec.Value "value"
      Except.ok (TxData.arbDeposit
        { ChainId := some cid, L1RequestId := rid, From := fr, To := toA,
          Value := some vl })) := by
      simp [unmarshalArbitrumJSON, hty, ArbitrumDepositTxType,
        ArbitrumLegacyTxType, ArbitrumInternalTxType]
    refine ⟨?_, ?_, ?_, ?_, ?_, ?_⟩
    · rw [hu]
      cases hc : dec.ChainID <;> cases hr : dec.RequestId <;>
        cases hto : dec.To <;> cases hfr : dec.From <;>
        cases hval : dec.Value <;> simp [decodeOk]
    · intro h; rw [hu]; simp [h]
    · intro c hc h; rw [hu]; simp [hc, h]
    · intro c rid hc hr h; rw [hu]; simp [hc, hr, h]
    · intro c rid toA hc hr hto h; rw [hu]; simp [hc, hr, hto, h]
    · intro c rid toA fr hc hr hto hfr h; rw [hu]; simp [hc, hr, hto, hfr, h]

/-- A complete Optimism deposit wire object with `isSystemTx` and the
destination absent. -/
def opDepositFull : txJSON :=
  { emptyTxJSON with
      Type' := OPDepositTxType, Gas := some 21000, Value := some 5,
      Input := some [1], From := some 3, SourceHash := some 9 }

/-- Witness for C6: the complete example decodes, and the decoded
variant's system-transaction flag defaults to false. -/
theorem deposit_required_fields_witness :
    decodeOk (unmarshalOptimismJSON opDepositFull) = true ∧
    (∀ t, unmarshalOptimismJSON opDepositFull = Except.ok t →
      depositSystemFlag t = some false) := by
  have h := deposit_required_fields.1 opDepositFull rfl rfl rfl rfl rfl rfl
  exact ⟨h.1.mpr ⟨rfl, rfl, rfl, rfl, rfl⟩,
    fun t ht => h.2.2.2.2.2.2.1 t ht rfl⟩

/-- C8.  The legacy-with-override decode requires nonce, gas price, gas
limit, value, payload, the full signature triple, the effective gas
price paid and the source block number; the first absent one aborts with
its missing-field error (the two override fields are only reached after
a non-zero triple passes the external sanity check, whose failure aborts
with the sanity error); a decode that reaches the end succeeds with the
optional sender override taken verbatim from the wire object. -/
theorem arbLegacy_decode_spec
    (sanity : Int → Int → Int → Bool → Option DecodeErr) (dec : txJSON)
    (hty : dec.Type' = ArbitrumLegacyTxType) :
    (∀ n gp g vl inp v r s egp bn,
      dec.Nonce = some n → dec.GasPrice = some gp → dec.Gas = some g →
      dec.Value = some vl → dec.Input = some inp → dec.V = some v →
      dec.R = some r → dec.S = some s → dec.EffectiveGasPrice = some egp →
      dec.L1BlockNumber = some bn →
      ((v = 0 ∧ r = 0 ∧ s = 0) ∨ sanity v r s true = none) →
      unmarshalArbitrumJSON sanity dec = Except.ok (TxData.arbLegacy
        ⟨⟨n, some gp, g, dec.To, some vl, inp, some v, some r, some s⟩,
          dec.Hash, egp, bn, dec.From⟩)) ∧
    (dec.Nonce = none → unmarshalArbitrumJSON sanity dec =
      Except.error (DecodeErr.missingField "nonce")) ∧
    (∀ n, dec.Nonce = some n → dec.GasPrice = none →
      unmarshalArbitrumJSON sanity dec =
        Except.error (DecodeErr.missingField "gasPrice")) ∧
    (∀ n gp, dec.Nonce = some n → dec.GasPrice = some gp → dec.Gas = none →
      unmarshalArbitrumJSON sanity dec =
        Except.error (DecodeErr.missingField "gas")) ∧
    (∀ n gp g, dec.Nonce = some n → dec.GasPrice = some gp →
      dec.Gas = some g → dec.Value = none →
      unmarshalArbitrumJSON sanity dec =
        Except.error (DecodeErr.missingField "value")) ∧
    (∀ n gp g vl, dec.Nonce = some n → dec.GasPrice = some gp →
      dec.Gas = some g → dec.Value = some vl → dec.Input = none →
      unmarshalArbitrumJSON sanity dec =
        Except.error (DecodeErr.missingField "input")) ∧
    (∀ n gp g vl inp, dec.Nonce = some n → dec.GasPrice = some gp →
      dec.Gas = some g → dec.Value = some vl → dec.Input = some inp →
      dec.V = none →
      unmarshalArbitrumJSON sanity dec =
        Except.error (DecodeErr.missingField "v")) ∧
    (∀ n gp g vl inp v, dec.Nonce = some n → dec.GasPrice = some gp →
      dec.Gas = some g → dec.Value = some vl → dec.Input = some inp →
      dec.V = some v → dec.R = none →
      unmarshalArbitrumJSON sanity dec =
        Except.error (DecodeErr.missingField "r")) ∧
    (∀ n gp g vl inp v r, dec.Nonce = some n → dec.GasPrice = some gp →
      dec.Gas = some g → dec.Value = some vl → dec.Input = some inp →
      dec.V = some v → dec.R = some r → dec.S = none →
      unmarshalArbitrumJSON sanity dec =
        Except.error (DecodeErr.missingField "s")) ∧
    (∀ n gp g vl inp v r s e, dec.Nonce = some n → dec.GasPrice = some gp →
      dec.Gas = some g → dec.Value = some vl → dec.Input = some inp →
      dec.V = some v → dec.R = some r → dec.S = some s →
      (v ≠ 0 ∨ r ≠ 0 ∨ s ≠ 0) → sanity v r s true = some e →
      unmarshalArbitrumJSON sanity dec = Except.error e) ∧
    (∀ n gp g vl inp v r s, dec.Nonce = some n → dec.GasPrice = some gp →
      dec.Gas = some g → dec.Value = some vl → dec.Input = some inp →
      dec.V = some v → dec.R = some r → dec.S = some s →
      ((v = 0 ∧ r = 0 ∧ s = 0) ∨ sanity v r s true = none) →
      dec.EffectiveGasPrice = none →
      unmarshalArbitrumJSON sanity dec =
        Except.error (DecodeErr.missingField "EffectiveGasPrice")) ∧
    (∀ n gp g vl inp v r s egp, dec.Nonce = some n → dec.GasPrice = some gp →
      dec.Gas = some g → dec.Value = some vl → dec.Input = some inp →
      dec.V = some v → dec.R = some r → dec.S = some s →
      ((v = 0 ∧ r = 0 ∧ s = 0) ∨ sanity v r s true = none) →
      dec.EffectiveGasPrice = some egp → dec.L1BlockNumber = none →
      unmarshalArbitrumJSON sanity dec =
        Except.error (DecodeErr.missingField "L1BlockNumber")) := by
  have hu : unmarshalArbitrumJSON sanity dec = (do
    let nonce ← requireField dec.Nonce "nonce"
    let gp ← requireField dec.GasPrice "gasPrice"
    let gas ← requireField dec.Gas "gas"
    let vl ← requireField dec.Value "value"
    let inp ← requireField dec.Input "input"
    let v ← requireField dec.V "v"
    let r ← requireField dec.R "r"
    let s ← requireField dec.S "s"
    match (if v ≠ 0 ∨ r ≠ 0 ∨ s ≠ 0 then sanity v r s true
           else none) with
    | some e => Except.error e
    | none => do
      let egp ← requireField dec.EffectiveGasPrice "EffectiveGasPrice"
      let bn ← requireField dec.L1BlockNumber "L1BlockNumber"
      let ltx : LegacyTx Int (List Nat) :=
        { Nonce := nonce, GasPrice := some gp, Gas := gas, To := dec.To,
          Value := some vl, Data := inp, V := some v, R := some r, S := some s }
      Except.ok (TxData.arbLegacy
        { LegacyTx := ltx, HashOverride := dec.Hash, EffectiveGasPrice := egp,
          L1BlockNumber := bn, Sender := dec.From })) := by
    simp [unmarshalArbitrumJSON, hty]
  refine ⟨?_, ?_, ?_, ?_, ?_, ?_, ?_, ?_, ?_, ?_, ?_, ?_⟩
  · intro n gp g vl inp v r s egp bn h1 h2 h3 h4 h5 h6 h7 h8 h9 h10 hok
    rw [hu]
    rcases hok with ⟨hv, hr, hs⟩ | hsan
    · simp [h1, h2, h3, h4, h5, h6, h7, h8, h9, h10, hv, hr, hs]
    · simp [h1, h2, h3, h4, h5, h6, h7, h8, h9, h10, hsan, ite_self]
  · intro h; rw [hu]; simp [h]
  · intro n h1 h; rw [hu]; simp [h1, h]
  · intro n gp h1 h2 h; rw [hu]; simp [h1, h2, h]
  · intro n gp g h1 h2 h3 h; rw [hu]; simp [h1, h2, h3, h]
  · intro n gp g vl h1 h2 h3 h4 h; rw [hu]; simp [h1, h2, h3, h4, h]
  · intro n gp g vl inp h1 h2 h3 h4 h5 h; rw [hu]; simp [h1, h2, h3, h4, h5, h]
  · intro n gp g vl inp v h1 h2 h3 h4 h5 h6 h; rw [hu]
    simp [h1, h2, h3, h4, h5, h6, h]
  · intro n gp g vl inp v r h1 h2 h3 h4 h5 h6 h7 h; rw [hu]
    simp [h1, h2, h3, h4, h5, h6, h7, h]
  · intro n gp g vl inp v r s e h1 h2 h3 h4 h5 h6 h7 h8 hnz hsan
    rw [hu]
    simp [h1, h2, h3, h4, h5, h6, h7, h8, hnz, hsan]
  · intro n gp g vl inp v r s h1 h2 h3 h4 h5 h6 h7 h8 hok h
    rw [hu]
    rcases hok with ⟨hv, hr, hs⟩ | hsan
    · simp [h1, h2, h3, h4, h5, h6, h7, h8, hv, hr, hs, h]
    · simp [h1, h2, h3, h4, h5, h6, h7, h8, hsan, ite_self, h]
  · intro n gp g vl inp v r s egp h1 h2 h3 h4 h5 h6 h7 h8 hok h9 h
    rw [hu]
    rcases hok with ⟨hv, hr, hs⟩ | hsan
    · simp [h1, h2, h3, h4, h5, h6, h7, h8, h9, hv, hr, hs, h]
    · simp [h1, h2, h3, h4, h5, h6, h7, h8, h9, hsan, ite_self, h]

/-- Witness for C8: a fully populated legacy-with-override object with a
zero signature triple decodes successfully. -/
theorem arbLegacy_decode_spec_witness :
    unmarshalArbitrumJSON (fun _ _ _ _ => none)
      { emptyTxJSON with
          Type' := ArbitrumLegacyTxType, Nonce := some 1, GasPrice := some 2,
          Gas := some 3, Value := some 4, Input := some [5], V := some 0,
          R := some 0, S := some 0, EffectiveGasPrice := some 6,
          L1BlockNumber := some 7 } =
      Except.ok (TxData.arbLegacy
        ⟨⟨1, some 2, 3, none, some 4, [5], some 0, some 0, some 0⟩,
          0, 6, 7, none⟩) :=
  (arbLegacy_decode_spec (fun _ _ _ _ => none) _ rfl).1 1 2 3 4 [5] 0 0 0 6 7
    rfl rfl rfl rfl rfl rfl rfl rfl rfl rfl (Or.inl ⟨rfl, rfl, rfl⟩)

/-- Minimal big-endian byte string of a natural number (empty for 0);
the integer form used by the canonical encoder. -/
def natBEBytes : Nat → List Nat
  | 0 => []
  | n + 1 => natBEBytes ((n + 1) / 256) ++ [(n + 1) % 256]
decreasing_by exact Nat.div_lt_self (Nat.succ_pos n) (by norm_num)

/-- Modelled from the spec: the external canonical list/bytes encoder's
length header (`tag` 128 for byte strings, 192 for lists). -/
def rlpLenHeader (tag len : Nat) : List Nat :=
  if len < 56 then [tag + len]
  else [tag + 55 + (natBEBytes len).length] ++ natBEBytes len

/-- Modelled from the spec: canonical encoding of a byte string. -/
def rlpBytes (bs : List Nat) : List Nat :=
  match bs with
  | [b] => if b < 128 then [b] else [129, b]
  | _ => rlpLenHeader 128 bs.length ++ bs

/-- Modelled from the spec: canonical encoding of a `uint64`. -/
def rlpUint (n : Nat) : List Nat := rlpBytes (natBEBytes n)

/-- Modelled from the spec: canonical encoding of a (nil-able,
non-negative) big integer — a nil pointer encodes as the empty byte
string. -/
def rlpBigInt : Option Int → List Nat
  | none => [128]
  | some i => rlpBytes (natBEBytes i.toNat)

/-- Modelled from the spec: canonical encoding of an optional address
(`rlp:"nil"`). -/
def rlpOptAddr : Option Nat → List Nat
  | none => [128]
  | some a => rlpBytes (beBytes 20 a)

/-- Modelled from the spec: canonical encoding of a boolean. -/
def rlpBool : Bool → List Nat
  | true => [1]
  | false => [128]

/-- Modelled from the spec: canonical encoding of a list payload. -/
def rlpList (payload : List Nat) : List Nat :=
  rlpLenHeader 192 payload.length ++ payload

/-- Modelled from the spec: the canonical (hash-affecting) binary
encoding of the base deposit variant — the external canonical encoder
applied to its fields in declaration order (the encoder itself lives
outside src). -/
def DepositTx.encodeRLP (tx : DepositTx Int (List Nat)) : List Nat :=
  rlpList (rlpBytes (beBytes 32 tx.SourceHash) ++
    rlpBytes (beBytes 20 tx.From) ++ rlpOptAddr tx.To ++ rlpBigInt tx.Mint ++
    rlpBigInt tx.Value ++ rlpUint tx.Gas ++ rlpBool tx.IsSystemTransaction ++
    rlpBytes tx.Data)

/-- `depositTxWithNonce.EncodeRLP` (source): the wrapper's canonical
encoding is exactly the canonical encoding of the embedded base
`DepositTx`; the effective nonce is excluded. -/
def depositTxWithNonce.EncodeRLP (tx : depositTxWithNonce Int (List Nat)) :
    List Nat :=
  tx.toDepositTx.encodeRLP

/-- C3.  A deposit-variant wire object that decodes successfully and
carries an explicit nonce yields the nonce-carrying shape; its canonical
encoding is that of the embedded base variant alone, which is also
exactly what the same object with the nonce stripped decodes to. -/
theorem depositWithNonce_canonical (dec : txJSON) (n : Nat)
    (hn : dec.Nonce = some n) (t : TxData Int (List Nat))
    (ht : unmarshalOptimismJSON dec = Except.ok t) :
    ∃ w : depositTxWithNonce Int (List Nat),
      t = TxData.depositWithNonce w ∧ w.EffectiveNonce = n ∧
      w.EncodeRLP = w.toDepositTx.encodeRLP ∧
      unmarshalOptimismJSON { dec with Nonce := none } =
        Except.ok (TxData.deposit w.toDepositTx) := by
  by_cases h0 : dec.Type' = OPDepositTxType
  case neg => simp [unmarshalOptimismJSON, h0] at ht
  by_cases hA : (dec.AccessList.isSome || dec.MaxFeePerGas.isSome ||
      dec.MaxPriorityFeePerGas.isSome) = true
  case pos => simp [unmarshalOptimismJSON, h0, hA] at ht
  by_cases hG : presentNonZero dec.GasPrice = true
  case pos => simp [unmarshalOptimismJSON, h0, hA, hG] at ht
  by_cases hS : (presentNonZero dec.V || presentNonZero dec.R ||
      presentNonZero dec.S) = true
  case pos => simp [unmarshalOptimismJSON, h0, hA, hG, hS] at ht
  simp only [Bool.not_eq_true] at hA hG hS
  have hu : ∀ d : txJSON, d.Type' = OPDepositTxType →
      (d.AccessList.isSome || d.MaxFeePerGas.isSome ||
        d.MaxPriorityFeePerGas.isSome) = false →
      presentNonZero d.GasPrice = false →
      (presentNonZero d.V || presentNonZero d.R ||
        presentNonZero d.S) = false →
      unmarshalOptimismJSON d = (do
        let gas ← requireField d.Gas "gas"
        let vl ← requireField d.Value "value"
        let inp ← requireField d.Input "input"
        let fr ← requireField d.From "from"
        let sh ← requireField d.SourceHash "sourceHash"
        let itx : DepositTx Int (List Nat) :=
          { SourceHash := sh, From := fr, To := d.To, Mint := d.Mint,
            Value := some vl, Gas := gas,
            IsSystemTransaction := d.IsSystemTx.getD false, Data := inp }
        match d.Nonce with
        | some m => Except.ok (TxData.depositWithNonce ⟨itx, m⟩)
        | none => Except.ok (TxData.deposit itx)) := by
    intro d hd1 hd2 hd3 hd4
    simp [unmarshalOptimismJSON, hd1, hd2, hd3, hd4]
  rw [hu dec h0 hA hG hS] at ht
  cases hgas : dec.Gas <;> simp [hgas] at ht
  cases hval : dec.Value <;> simp [hval] at ht
  cases hinp : dec.Input <;> simp [hinp] at ht
  cases hfr : dec.From <;> simp [hfr] at ht
  cases hsh : dec.SourceHash <;> simp [hsh] at ht
  rw [hn] at ht
  simp only [] at ht
  rename_i g vl inp fr sh
  refine ⟨⟨⟨sh, fr, dec.To, dec.Mint, some vl, g, dec.IsSystemTx.getD false,
    inp⟩, n⟩, ?_, rfl, rfl, ?_⟩
  · exact (Except.ok.inj ht).symm
  · simp [hu, h0, hA, hG, hS, hgas, hval, hinp, hfr, hsh]

/-- Witness for C3 at a concrete wire object carrying nonce 4. -/
theorem depositWithNonce_canonical_witness :
    ∃ w : depositTxWithNonce Int (List Nat),
      TxData.depositWithNonce
          ⟨⟨9, 3, none, none, some 5, 21000, false, [1]⟩, 4⟩ =
        TxData.depositWithNonce w ∧ w.EffectiveNonce = 4 ∧
      w.EncodeRLP = w.toDepositTx.encodeRLP ∧
      unmarshalOptimismJSON
          { opDepositFull with Nonce := none } =
        Except.ok (TxData.deposit w.toDepositTx) :=
  depositWithNonce_canonical { opDepositFull with Nonce := some 4 } 4 rfl _ rfl

/-- `new(big.Int)` followed by `Set` from an optional source: a fresh
cell at `id` holding the source value, or zero when the source is nil. -/
def copyCell (src : Option Cell) (id : Nat) : Cell :=
  (id, (src.map Prod.snd).getD 0)

/-- `DepositTx.copy` in the heap model: `Value` and `Data` always get
fresh storage, `Mint` stays nil or gets fresh storage, everything else
is copied by value.  `c` is the next free allocation id. -/
def DepositTx.copy (tx : DepositTx Cell Buf) (c : Nat) :
    DepositTx Cell Buf × Nat :=
  match tx.Mint with
  | none =>
    (⟨tx.SourceHash, tx.From, tx.To, none, some (copyCell tx.Value c), tx.Gas,
      tx.IsSystemTransaction, (c + 1, tx.Data.2)⟩, c + 2)
  | some m =>
    (⟨tx.SourceHash, tx.From, tx.To, some (c + 2, m.2),
      some (copyCell tx.Value c), tx.Gas, tx.IsSystemTransaction,
      (c + 1, tx.Data.2)⟩, c + 3)

/-- Modelled from the spec: the wrapped legacy transaction's deep copy
(defined outside src), following the deep-copy protocol — fresh storage
for every big-integer and byte-buffer field, value copies elsewhere. -/
def LegacyTx.copy (tx : LegacyTx Cell Buf) (c : Nat) : LegacyTx Cell Buf × Nat :=
  (⟨tx.Nonce, some (copyCell tx.GasPrice (c + 1)), tx.Gas, tx.To,
    some (copyCell tx.Value (c + 2)), (c, tx.Data.2),
    some (copyCell tx.V (c + 3)), some (copyCell tx.R (c + 4)),
    some (copyCell tx.S (c + 5))⟩, c + 6)

/-- `ArbitrumLegacyTxData.copy`: deep-copies the embedded legacy
transaction and value-copies the override metadata (the sender override
pointer is duplicated, preserving nil-ness). -/
def ArbitrumLegacyTxData.copy (tx : ArbitrumLegacyTxData Cell Buf) (c : Nat) :
    ArbitrumLegacyTxData Cell Buf × Nat :=
  let p := tx.LegacyTx.copy c
  (⟨p.1, tx.HashOverride, tx.EffectiveGasPrice, tx.L1BlockNumber, tx.Sender⟩,
    p.2)

/-- `ArbitrumUnsignedTx.copy` in the heap model. -/
def ArbitrumUnsignedTx.copy (tx : ArbitrumUnsignedTx Cell Buf) (c : Nat) :
    ArbitrumUnsignedTx Cell Buf × Nat :=
  (⟨some (copyCell tx.ChainId c), tx.From, tx.Nonce,
    some (copyCell tx.GasFeeCap (c + 1)), tx.Gas, tx.To,
    some (copyCell tx.Value (c + 2)), (c + 3, tx.Data.2)⟩, c + 4)

/-- `ArbitrumInternalTx.copy` in the heap model.  The source runs
`new(big.Int).Set(tx.ChainId)` without a nil check, so a nil chain id
panics (`none`). -/
def ArbitrumInternalTx.copy (tx : ArbitrumInternalTx Cell Buf) (c : Nat) :
    Option (ArbitrumInternalTx Cell Buf × Nat) :=
  match tx.ChainId with
  | none => none
  | some ci => some (⟨some (c, ci.2), (c + 1, tx.Data.2)⟩, c + 2)

/-- `ArbitrumDepositTx.copy` in the heap model. -/
def ArbitrumDepositTx.copy (tx : ArbitrumDepositTx Cell Buf) (c : Nat) :
    ArbitrumDepositTx Cell Buf × Nat :=
  (⟨some (copyCell tx.ChainId c), tx.L1RequestId, tx.From, tx.To,
    some (copyCell tx.Value (c + 1))⟩, c + 2)

/-- `ArbitrumContractTx.copy` in the heap model. -/
def ArbitrumContractTx.copy (tx : ArbitrumContractTx Cell Buf) (c : Nat) :
    ArbitrumContractTx Cell Buf × Nat :=
  (⟨some (copyCell tx.ChainId c), tx.RequestId, tx.From,
    some (copyCell tx.GasFeeCap (c + 1)), tx.Gas, tx.To,
    some (copyCell tx.Value (c + 2)), (c + 3, tx.Data.2)⟩, c + 4)

/-- `ArbitrumRetryTx.copy` in the heap model. -/
def ArbitrumRetryTx.copy (tx : ArbitrumRetryTx Cell Buf) (c : Nat) :
    ArbitrumRetryTx Cell Buf × Nat :=
  (⟨some (copyCell tx.ChainId c), tx.Nonce, tx.From,
    some (copyCell tx.GasFeeCap (c + 1)), tx.Gas, tx.To,
    some (copyCell tx.Value (c + 2)), (c + 3, tx.Data.2), tx.TicketId,
    tx.RefundTo, some (copyCell tx.MaxRefund (c + 4)),
    some (copyCell tx.SubmissionFeeRefund (c + 5))⟩, c + 6)

/-- `ArbitrumSubmitRetryableTx.copy` in the heap model. -/
def ArbitrumSubmitRetryableTx.copy (tx : ArbitrumSubmitRetryableTx Cell Buf)
    (c : Nat) : ArbitrumSubmitRetryableTx Cell Buf × Nat :=
  (⟨some (copyCell tx.ChainId c), tx.RequestId, tx.From,
    some (copyCell tx.L1BaseFee (c + 2)), some (copyCell tx.DepositValue (c + 1)),
    some (copyCell tx.GasFeeCap (c + 3)), tx.Gas, tx.RetryTo,
    some (copyCell tx.RetryValue (c + 4)), tx.Beneficiary,
    some (copyCell tx.MaxSubmissionFee (c + 5)), tx.FeeRefundAddr,
    (c + 6, tx.RetryData.2)⟩, c + 7)

/-- `copy` over the closed variant set.  Promotion in Go means the
nonce-carrying wrapper inherits the base variant's `copy`, so its clone
is a bare `DepositTx`. -/
def TxData.copy (t : TxData Cell Buf) (c : Nat) : Option (TxData Cell Buf × Nat) :=
  match t with
  | TxData.deposit tx =>
    let p := tx.copy c
    some (TxData.deposit p.1, p.2)
  | TxData.depositWithNonce w =>
    let p := w.toDepositTx.copy c
    some (TxData.deposit p.1, p.2)
  | TxData.arbLegacy tx =>
    let p := tx.copy c
    some (TxData.arbLegacy p.1, p.2)
  | TxData.arbUnsigned tx =>
    let p := tx.copy c
    some (TxData.arbUnsigned p.1, p.2)
  | TxData.arbInternal tx =>
    (tx.copy c).map (fun p => (TxData.arbInternal p.1, p.2))
  | TxData.arbDeposit tx =>
    let p := tx.copy c
    some (TxData.arbDeposit p.1, p.2)
  | TxData.arbContract tx =>
    let p := tx.copy c
    some (TxData.arbContract p.1, p.2)
  | TxData.arbRetry tx =>
    let p := tx.copy c
    some (TxData.arbRetry p.1, p.2)
  | TxData.arbSubmitRetryable tx =>
    let p := tx.copy c
    some (TxData.arbSubmitRetryable p.1, p.2)

/-- Forget the allocation ids of a heap-model deposit transaction. -/
def DepositTx.toPlain (tx : DepositTx Cell Buf) : DepositTx Int (List Nat) :=
  ⟨tx.SourceHash, tx.From, tx.To, tx.Mint.map Prod.snd, tx.Value.map Prod.snd,
    tx.Gas, tx.IsSystemTransaction, tx.Data.2⟩

/-- Forget the allocation ids of a heap-model legacy transaction. -/
def LegacyTx.toPlain (tx : LegacyTx Cell Buf) : LegacyTx Int (List Nat) :=
  ⟨tx.Nonce, tx.GasPrice.map Prod.snd, tx.Gas, tx.To, tx.Value.map Prod.snd,
    tx.Data.2, tx.V.map Prod.snd, tx.R.map Prod.snd, tx.S.map Prod.snd⟩

/-- Forget the allocation ids of a heap-model legacy wrapper. -/
def ArbitrumLegacyTxData.toPlain (tx : ArbitrumLegacyTxData Cell Buf) :
    ArbitrumLegacyTxData Int (List Nat) :=
  ⟨tx.LegacyTx.toPlain, tx.HashOverride, tx.EffectiveGasPrice,
    tx.L1BlockNumber, tx.Sender⟩

/-- Forget the allocation ids of a heap-model unsigned transaction. -/
def ArbitrumUnsignedTx.toPlain (tx : ArbitrumUnsignedTx Cell Buf) :
    ArbitrumUnsignedTx Int (List Nat) :=
  ⟨tx.ChainId.map Prod.snd, tx.From, tx.Nonce, tx.GasFeeCap.map Prod.snd,
    tx.Gas, tx.To, tx.Value.map Prod.snd, tx.Data.2⟩

/-- Forget the allocation ids of a heap-model internal transaction. -/
def ArbitrumInternalTx.toPlain (tx : ArbitrumInternalTx Cell Buf) :
    ArbitrumInternalTx Int (List Nat) :=
  ⟨tx.ChainId.map Prod.snd, tx.Data.2⟩

/-- Forget the allocation ids of a heap-model Arbitrum deposit. -/
def ArbitrumDepositTx.toPlain (tx : ArbitrumDepositTx Cell Buf) :
    ArbitrumDepositTx Int (List Nat) :=
  ⟨tx.ChainId.map Prod.snd, tx.L1RequestId, tx.From, tx.To,
    tx.Value.map Prod.snd⟩

/-- Forget the allocation ids of a heap-model contract transaction. -/
def ArbitrumContractTx.toPlain (tx : ArbitrumContractTx Cell Buf) :
    ArbitrumContractTx Int (List Nat) :=
  ⟨tx.ChainId.map Prod.snd, tx.RequestId, tx.From, tx.GasFeeCap.map Prod.snd,
    tx.Gas, tx.To, tx.Value.map Prod.snd, tx.Data.2⟩

/-- Forget the allocation ids of a heap-model retry transaction. -/
def ArbitrumRetryTx.toPlain (tx : ArbitrumRetryTx Cell Buf) :
    ArbitrumRetryTx Int (List Nat) :=
  ⟨tx.ChainId.map Prod.snd, tx.Nonce, tx.From, tx.GasFeeCap.map Prod.snd,
    tx.Gas, tx.To, tx.Value.map Prod.snd, tx.Data.2, tx.TicketId, tx.RefundTo,
    tx.MaxRefund.map Prod.snd, tx.SubmissionFeeRefund.map Prod.snd⟩

/-- Forget the allocation ids of a heap-model submit-retryable. -/
def ArbitrumSubmitRetryableTx.toPlain (tx : ArbitrumSubmitRetryableTx Cell Buf) :
    ArbitrumSubmitRetryableTx Int (List Nat) :=
  ⟨tx.ChainId.map Prod.snd, tx.RequestId, tx.From, tx.L1BaseFee.map Prod.snd,
    tx.DepositValue.map Prod.snd, tx.GasFeeCap.map Prod.snd, tx.Gas,
    tx.RetryTo, tx.RetryValue.map Prod.snd, tx.Beneficiary,
    tx.MaxSubmissionFee.map Prod.snd, tx.FeeRefundAddr, tx.RetryData.2⟩

/-- Forget the allocation ids of any heap-model variant. -/
def TxData.toPlain : TxData Cell Buf → TxData Int (List Nat)
  | TxData.deposit tx => TxData.deposit tx.toPlain
  | TxData.depositWithNonce w =>
    TxData.depositWithNonce ⟨w.toDepositTx.toPlain, w.EffectiveNonce⟩
  | TxData.arbLegacy tx => TxData.arbLegacy tx.toPlain
  | TxData.arbUnsigned tx => TxData.arbUnsigned tx.toPlain
  | TxData.arbInternal tx => TxData.arbInternal tx.toPlain
  | TxData.arbDeposit tx => TxData.arbDeposit tx.toPlain
  | TxData.arbContract tx => TxData.arbContract tx.toPlain
  | TxData.arbRetry tx => TxData.arbRetry tx.toPlain
  | TxData.arbSubmitRetryable tx => TxData.arbSubmitRetryable tx.toPlain

/-- Allocation ids of the mutable storage (big-integer cells and byte
buffers) reachable from a heap-model deposit transaction. -/
def DepositTx.cellIds (tx : DepositTx Cell Buf) : List Nat :=
  (tx.Mint.map Prod.fst).toList ++ (tx.Value.map Prod.fst).toList ++ [tx.Data.1]

/-- Mutable-storage ids of a heap-model legacy transaction. -/
def LegacyTx.cellIds (tx : LegacyTx Cell Buf) : List Nat :=
  (tx.GasPrice.map Prod.fst).toList ++ (tx.Value.map Prod.fst).toList ++
  (tx.V.map Prod.fst).toList ++ (tx.R.map Prod.fst).toList ++
  (tx.S.map Prod.fst).toList ++ [tx.Data.1]

/-- Mutable-storage ids of a heap-model legacy wrapper. -/
def ArbitrumLegacyTxData.cellIds (tx : ArbitrumLegacyTxData Cell Buf) :
    List Nat := tx.LegacyTx.cellIds

/-- Mutable-storage ids of a heap-model unsigned transaction. -/
def ArbitrumUnsignedTx.cellIds (tx : ArbitrumUnsignedTx Cell Buf) : List Nat :=
  (tx.ChainId.map Prod.fst).toList ++ (tx.GasFeeCap.map Prod.fst).toList ++
  (tx.Value.map Prod.fst).toList ++ [tx.Data.1]

/-- Mutable-storage ids of a heap-model internal transaction. -/
def ArbitrumInternalTx.cellIds (tx : ArbitrumInternalTx Cell Buf) : List Nat :=
  (tx.ChainId.map Prod.fst).toList ++ [tx.Data.1]

/-- Mutable-storage ids of a heap-model Arbitrum deposit. -/
def ArbitrumDepositTx.cellIds (tx : ArbitrumDepositTx Cell Buf) : List Nat :=
  (tx.ChainId.map Prod.fst).toList ++ (tx.Value.map Prod.fst).toList

/-- Mutable-storage ids of a heap-model contract transaction. -/
def ArbitrumContractTx.cellIds (tx : ArbitrumContractTx Cell Buf) : List Nat :=
  (tx.ChainId.map Prod.fst).toList ++ (tx.GasFeeCap.map Prod.fst).toList ++
  (tx.Value.map Prod.fst).toList ++ [tx.Data.1]

/-- Mutable-storage ids of a heap-model retry transaction. -/
def ArbitrumRetryTx.cellIds (tx : ArbitrumRetryTx Cell Buf) : List Nat :=
  (tx.ChainId.map Prod.fst).toList ++ (tx.GasFeeCap.map Prod.fst).toList ++
  (tx.Value.map Prod.fst).toList ++ (tx.MaxRefund.map Prod.fst).toList ++
  (tx.SubmissionFeeRefund.map Prod.fst).toList ++ [tx.Data.1]

/-- Mutable-storage ids of a heap-model submit-retryable. -/
def ArbitrumSubmitRetryableTx.cellIds (tx : ArbitrumSubmitRetryableTx Cell Buf) :
    List Nat :=
  (tx.ChainId.map Prod.fst).toList ++ (tx.L1BaseFee.map Prod.fst).toList ++
  (tx.DepositValue.map Prod.fst).toList ++ (tx.GasFeeCap.map Prod.fst).toList ++
  (tx.RetryValue.map Prod.fst).toList ++
  (tx.MaxSubmissionFee.map Prod.fst).toList ++ [tx.RetryData.1]

/-- Mutable-storage ids of any heap-model variant. -/
def TxData.cellIds : TxData Cell Buf → List Nat
  | TxData.deposit tx => tx.cellIds
  | TxData.depositWithNonce w => w.toDepositTx.cellIds
  | TxData.arbLegacy tx => tx.cellIds
  | TxData.arbUnsigned tx => tx.cellIds
  | TxData.arbInternal tx => tx.cellIds
  | TxData.arbDeposit tx => tx.cellIds
  | TxData.arbContract tx => tx.cellIds
  | TxData.arbRetry tx => tx.cellIds
  | TxData.arbSubmitRetryable tx => tx.cellIds

/-- The non-optional big-integer fields of a heap-model variant are
non-nil.  The deposit variants' `Mint` — the one big-integer field the
source declares nil-able (`rlp:"nil"`) and copies nil-preservingly — is
deliberately unconstrained. -/
def TxData.bigSome : TxData Cell Buf → Prop
  | TxData.deposit tx => tx.Value.isSome
  | TxData.depositWithNonce w => w.toDepositTx.Value.isSome
  | TxData.arbLegacy tx =>
    tx.LegacyTx.GasPrice.isSome ∧ tx.LegacyTx.Value.isSome ∧
    tx.LegacyTx.V.isSome ∧ tx.LegacyTx.R.isSome ∧ tx.LegacyTx.S.isSome
  | TxData.arbUnsigned tx =>
    tx.ChainId.isSome ∧ tx.GasFeeCap.isSome ∧ tx.Value.isSome
  | TxData.arbInternal tx => tx.ChainId.isSome
  | TxData.arbDeposit tx => tx.ChainId.isSome ∧ tx.Value.isSome
  | TxData.arbContract tx =>
    tx.ChainId.isSome ∧ tx.GasFeeCap.isSome ∧ tx.Value.isSome
  | TxData.arbRetry tx =>
    tx.ChainId.isSome ∧ tx.GasFeeCap.isSome ∧ tx.Value.isSome ∧
    tx.MaxRefund.isSome ∧ tx.SubmissionFeeRefund.isSome
  | TxData.arbSubmitRetryable tx =>
    tx.ChainId.isSome ∧ tx.L1BaseFee.isSome ∧ tx.DepositValue.isSome ∧
    tx.GasFeeCap.isSome ∧ tx.RetryValue.isSome ∧ tx.MaxSubmissionFee.isSome

/-- Everything a variant exposes through the Capability Interface, with
pointer results projected to their values (`toAddr` is the destination
address value, `dataBytes` is `none` when `data()` panics, `egp` is
`effectiveGasPrice` as a function of the optional base fee). -/
structure Obs where
  typeTag : Nat
  chainID : Option Int
  gas : Nat
  gasPrice : Option Int
  gasTipCap : Option Int
  gasFeeCap : Option Int
  value : Option Int
  nonce : Nat
  toAddr : Option Nat
  dataBytes : Option (List Nat)
  blobGas : Nat
  blobGasFeeCap : Option Int
  rawSig : Option Int × Option Int × Option Int
  egp : Option Int → Option Int

/-- The Capability Interface observations of each variant, assembled
from the source accessors (blob accessors are the constant zero/empty
forms for every variant here). -/
def TxData.obs : TxData Int (List Nat) → Obs
  | TxData.deposit tx =>
    ⟨tx.txType, tx.chainID, tx.gas, tx.gasPrice, tx.gasTipCap, tx.gasFeeCap,
      tx.value, tx.nonce, tx.to, some tx.data, 0, none, tx.rawSignatureValues,
      tx.effectiveGasPrice⟩
  | TxData.depositWithNonce w =>
    ⟨w.toDepositTx.txType, w.toDepositTx.chainID, w.toDepositTx.gas,
      w.toDepositTx.gasPrice, w.toDepositTx.gasTipCap, w.toDepositTx.gasFeeCap,
      w.toDepositTx.value, w.toDepositTx.nonce, w.toDepositTx.to,
      some w.toDepositTx.data, 0, none, w.toDepositTx.rawSignatureValues,
      w.toDepositTx.effectiveGasPrice⟩
  | TxData.arbLegacy tx =>
    ⟨tx.txType, tx.LegacyTx.chainID, tx.LegacyTx.gas, tx.LegacyTx.gasPrice,
      tx.LegacyTx.gasTipCap, tx.LegacyTx.gasFeeCap, tx.LegacyTx.value,
      tx.LegacyTx.nonce, tx.LegacyTx.to, some tx.LegacyTx.data, 0, none,
      tx.LegacyTx.rawSignatureValues, tx.LegacyTx.effectiveGasPrice⟩
  | TxData.arbUnsigned tx =>
    ⟨tx.txType, tx.chainID, tx.gas, tx.gasPrice, tx.gasTipCap, tx.gasFeeCap,
      tx.value, tx.nonce, tx.to, some tx.data, 0, none, tx.rawSignatureValues,
      tx.effectiveGasPrice⟩
  | TxData.arbInternal tx =>
    ⟨tx.txType, tx.chainID, tx.gas, tx.gasPrice, tx.gasTipCap, tx.gasFeeCap,
      tx.value, tx.nonce, tx.to.map AddrPtr.val, some tx.data, 0, none,
      tx.rawSignatureValues, tx.effectiveGasPrice⟩
  | TxData.arbDeposit tx =>
    ⟨tx.txType, tx.chainID, tx.gas, tx.gasPrice, tx.gasTipCap, tx.gasFeeCap,
      tx.value, tx.nonce, tx.to, some tx.data, 0, none, tx.rawSignatureValues,
      tx.effectiveGasPrice⟩
  | TxData.arbContract tx =>
    ⟨tx.txType, tx.chainID, tx.gas, tx.gasPrice, tx.gasTipCap, tx.gasFeeCap,
      tx.value, tx.nonce, tx.to, some tx.data, 0, none, tx.rawSignatureValues,
      tx.effectiveGasPrice⟩
  | TxData.arbRetry tx =>
    ⟨tx.txType, tx.chainID, tx.gas, tx.gasPrice, tx.gasTipCap, tx.gasFeeCap,
      tx.value, tx.nonce, tx.to, some tx.data, 0, none, tx.rawSignatureValues,
      tx.effectiveGasPrice⟩
  | TxData.arbSubmitRetryable tx =>
    ⟨tx.txType, tx.chainID, tx.gas, tx.gasPrice, tx.gasTipCap, tx.gasFeeCap,
      tx.value, tx.nonce, tx.to.map AddrPtr.val, tx.data, 0, none,
      tx.rawSignatureValues, tx.effectiveGasPrice⟩

/-- A heap-model unsigned transaction with a nil chain id (other fields
arbitrary concrete cells). -/
def unsignedNilChain : ArbitrumUnsignedTx Cell Buf :=
  ⟨none, 0, 0, some (5, 1), 21000, none, some (6, 0), (7, [])⟩

/-- C4 counterexample.  `copy` on a variant with a nil non-optional
big-integer field is not observation-preserving and does not preserve
that field's nil-ness: the clone of an unsigned transaction with nil
chain id reports chain id zero where the original reports nil. -/
theorem copy_nil_chainid_not_preserved :
    ∃ p, TxData.copy (TxData.arbUnsigned unsignedNilChain) 10 = some p ∧
      (TxData.toPlain p.1).obs.chainID ≠
        ((TxData.arbUnsigned unsignedNilChain).toPlain).obs.chainID :=
  ⟨_, rfl, by decide⟩

/-- The optional-address (pointer) fields of a variant, in declaration
order. -/
def TxData.optAddrFields {β δ : Type} : TxData β δ → List (Option Nat)
  | TxData.deposit tx => [tx.To]
  | TxData.depositWithNonce w => [w.toDepositTx.To]
  | TxData.arbLegacy tx => [tx.LegacyTx.To, tx.Sender]
  | TxData.arbUnsigned tx => [tx.To]
  | TxData.arbInternal _ => []
  | TxData.arbDeposit _ => []
  | TxData.arbContract tx => [tx.To]
  | TxData.arbRetry tx => [tx.To]
  | TxData.arbSubmitRetryable tx => [tx.RetryTo]

/-- The deposit variants' optional `Mint` big-integer field (`none` for
every variant that has no such field).  `Mint` is the only big-integer
field the source declares nil-able and copies nil-preservingly. -/
def TxData.mintField {β δ : Type} : TxData β δ → Option (Option β)
  | TxData.deposit tx => some tx.Mint
  | TxData.depositWithNonce w => some w.toDepositTx.Mint
  | _ => none

/-- C4 amended.  For every variant whose non-optional big-integer
fields are all non-nil (the deposit variants' optional `Mint` may be
nil), `copy` succeeds and the clone is observationally equal to the
source under every Capability Interface operation; every big-integer
cell and byte buffer of the clone is freshly allocated (its id is drawn
from the allocation counter and in particular disjoint from the
source's storage); fixed-size fields are copied by value; optional
address-pointer fields and the optional `Mint` field keep their value
and nil-ness (a nil `Mint` stays nil, a non-nil one gets fresh
storage).  (When a non-optional big-integer field is nil the source
behaves differently: the clone gets a fresh non-nil zero there — see
the counterexample — and the internal variant's copy panics on a nil
chain id.) -/
theorem copy_deep_copy_spec (t : TxData Cell Buf) (c : Nat)
    (hbig : t.bigSome) (hlt : ∀ i ∈ t.cellIds, i < c) :
    ∃ p : TxData Cell Buf × Nat, t.copy c = some p ∧
      (TxData.toPlain p.1).obs = (TxData.toPlain t).obs ∧
      (TxData.toPlain p.1).mintField = (TxData.toPlain t).mintField ∧
      p.1.optAddrFields = t.optAddrFields ∧
      (∀ i ∈ p.1.cellIds, c ≤ i ∧ i < p.2) ∧
      (∀ i ∈ p.1.cellIds, i ∉ t.cellIds) := by
  cases t with
  | deposit tx =>
    obtain ⟨v, hv⟩ := Option.isSome_iff_exists.mp hbig
    have hcopy : TxData.copy (TxData.deposit tx) c =
        some (TxData.deposit (tx.copy c).1, (tx.copy c).2) := rfl
    cases hm : tx.Mint with
    | none =>
      have hpl : (tx.copy c).1.toPlain = tx.toPlain := by
        simp [DepositTx.copy, DepositTx.toPlain, copyCell, hm, hv]
      refine ⟨_, hcopy, by simp [TxData.toPlain, TxData.obs, hpl],
        by simp [TxData.toPlain, TxData.mintField, hpl], ?_, ?_, ?_⟩
      · simp [TxData.optAddrFields, DepositTx.copy, hm]
      · intro i hi
        simp [TxData.cellIds, DepositTx.cellIds, DepositTx.copy, hm,
          copyCell] at hi ⊢
        rcases hi with h | h <;> omega
      · intro i hi hmem
        have hb := hlt i hmem
        simp [TxData.cellIds, DepositTx.cellIds, DepositTx.copy, hm,
          copyCell] at hi
        rcases hi with h | h <;> omega
    | some m =>
      have hpl : (tx.copy c).1.toPlain = tx.toPlain := by
        simp [DepositTx.copy, DepositTx.toPlain, copyCell, hm, hv]
      refine ⟨_, hcopy, by simp [TxData.toPlain, TxData.obs, hpl],
        by simp [TxData.toPlain, TxData.mintField, hpl], ?_, ?_, ?_⟩
      · simp [TxData.optAddrFields, DepositTx.copy, hm]
      · intro i hi
        simp [TxData.cellIds, DepositTx.cellIds, DepositTx.copy, hm,
          copyCell] at hi ⊢
        rcases hi with h | h | h <;> omega
      · intro i hi hmem
        have hb := hlt i hmem
        simp [TxData.cellIds, DepositTx.cellIds, DepositTx.copy, hm,
          copyCell] at hi
        rcases hi with h | h | h <;> omega
  | depositWithNonce w =>
    obtain ⟨v, hv⟩ := Option.isSome_iff_exists.mp hbig
    have hcopy : TxData.copy (TxData.depositWithNonce w) c =
        some (TxData.deposit (w.toDepositTx.copy c).1,
          (w.toDepositTx.copy c).2) := rfl
    cases hm : w.toDepositTx.Mint with
    | none =>
      have hpl : (w.toDepositTx.copy c).1.toPlain = w.toDepositTx.toPlain := by
        simp [DepositTx.copy, DepositTx.toPlain, copyCell, hm, hv]
      refine ⟨_, hcopy, by simp [TxData.toPlain, TxData.obs, hpl],
        by simp [TxData.toPlain, TxData.mintField, hpl], ?_, ?_, ?_⟩
      · simp [TxData.optAddrFields, DepositTx.copy, hm]
      · intro i hi
        simp [TxData.cellIds, DepositTx.cellIds, DepositTx.copy, hm,
          copyCell] at hi ⊢
        rcases hi with h | h <;> omega
      · intro i hi hmem
        have hb := hlt i hmem
        simp [TxData.cellIds, DepositTx.cellIds, DepositTx.copy, hm,
          copyCell] at hi
        rcases hi with h | h <;> omega
    | some m =>
      have hpl : (w.toDepositTx.copy c).1.toPlain = w.toDepositTx.toPlain := by
        simp [DepositTx.copy, DepositTx.toPlain, copyCell, hm, hv]
      refine ⟨_, hcopy, by simp [TxData.toPlain, TxData.obs, hpl],
        by simp [TxData.toPlain, TxData.mintField, hpl], ?_, ?_, ?_⟩
      · simp [TxData.optAddrFields, DepositTx.copy, hm]
      · intro i hi
        simp [TxData.cellIds, DepositTx.cellIds, DepositTx.copy, hm,
          copyCell] at hi ⊢
        rcases hi with h | h | h <;> omega
      · intro i hi hmem
        have hb := hlt i hmem
        simp [TxData.cellIds, DepositTx.cellIds, DepositTx.copy, hm,
          copyCell] at hi
        rcases hi with h | h | h <;> omega
  | arbLegacy tx =>
    obtain ⟨gp, hgp⟩ := Option.isSome_iff_exists.mp hbig.1
    obtain ⟨v0, hv0⟩ := Option.isSome_iff_exists.mp hbig.2.1
    obtain ⟨v, hv⟩ := Option.isSome_iff_exists.mp hbig.2.2.1
    obtain ⟨r, hr⟩ := Option.isSome_iff_exists.mp hbig.2.2.2.1
    obtain ⟨s, hs⟩ := Option.isSome_iff_exists.mp hbig.2.2.2.2
    have hcopy : TxData.copy (TxData.arbLegacy tx) c =
        some (TxData.arbLegacy (tx.copy c).1, (tx.copy c).2) := rfl
    have hpl : (tx.copy c).1.toPlain = tx.toPlain := by
      simp [ArbitrumLegacyTxData.copy, ArbitrumLegacyTxData.toPlain,
        LegacyTx.copy, LegacyTx.toPlain, copyCell, hgp, hv0, hv, hr, hs]
    refine ⟨_, hcopy, by simp [TxData.toPlain, TxData.obs, hpl], rfl, ?_,
      ?_, ?_⟩
    · simp [TxData.optAddrFields, ArbitrumLegacyTxData.copy, LegacyTx.copy]
    · intro i hi
      simp [TxData.cellIds, ArbitrumLegacyTxData.cellIds, LegacyTx.cellIds,
        ArbitrumLegacyTxData.copy, LegacyTx.copy, copyCell] at hi ⊢
      rcases hi with h | h | h | h | h | h <;> omega
    · intro i hi hmem
      have hb := hlt i hmem
      simp [TxData.cellIds, ArbitrumLegacyTxData.cellIds, LegacyTx.cellIds,
        ArbitrumLegacyTxData.copy, LegacyTx.copy, copyCell] at hi ⊢
      rcases hi with h | h | h | h | h | h <;> omega
  | arbUnsigned tx =>
    obtain ⟨ci, hci⟩ := Option.isSome_iff_exists.mp hbig.1
    obtain ⟨cap, hcap⟩ := Option.isSome_iff_exists.mp hbig.2.1
    obtain ⟨v, hv⟩ := Option.isSome_iff_exists.mp hbig.2.2
    have hcopy : TxData.copy (TxData.arbUnsigned tx) c =
        some (TxData.arbUnsigned (tx.copy c).1, (tx.copy c).2) := rfl
    have hpl : (tx.copy c).1.toPlain = tx.toPlain := by
      simp [ArbitrumUnsignedTx.copy, ArbitrumUnsignedTx.toPlain, copyCell,
        hci, hcap, hv]
    refine ⟨_, hcopy, by simp [TxData.toPlain, TxData.obs, hpl], rfl, ?_,
      ?_, ?_⟩
    · simp [TxData.optAddrFields, ArbitrumUnsignedTx.copy]
    · intro i hi
      simp [TxData.cellIds, ArbitrumUnsignedTx.cellIds,
        ArbitrumUnsignedTx.copy, copyCell] at hi ⊢
      rcases hi with h | h | h | h <;> omega
    · intro i hi hmem
      have hb := hlt i hmem
      simp [TxData.cellIds, ArbitrumUnsignedTx.cellIds,
        ArbitrumUnsignedTx.copy, copyCell] at hi ⊢
      rcases hi with h | h | h | h <;> omega
  | arbInternal tx =>
    obtain ⟨ci, hci⟩ := Option.isSome_iff_exists.mp hbig
    have hcopy : TxData.copy (TxData.arbInternal tx) c =
        some (TxData.arbInternal ⟨some (c, ci.2), (c + 1, tx.Data.2)⟩,
          c + 2) := by
      simp [TxData.copy, ArbitrumInternalTx.copy, hci]
    have hpl : (⟨some (c, ci.2), (c + 1, tx.Data.2)⟩ :
        ArbitrumInternalTx Cell Buf).toPlain = tx.toPlain := by
      simp [ArbitrumInternalTx.toPlain, hci]
    refine ⟨_, hcopy, by simp [TxData.toPlain, TxData.obs, hpl], rfl, rfl,
      ?_, ?_⟩
    · intro i hi
      simp [TxData.cellIds, ArbitrumInternalTx.cellIds, copyCell] at hi ⊢
      rcases hi with h | h <;> omega
    · intro i hi hmem
      have hb := hlt i hmem
      simp [TxData.cellIds, ArbitrumInternalTx.cellIds, copyCell] at hi ⊢
      rcases hi with h | h <;> omega
  | arbDeposit tx =>
    obtain ⟨ci, hci⟩ := Option.isSome_iff_exists.mp hbig.1
    obtain ⟨v, hv⟩ := Option.isSome_iff_exists.mp hbig.2
    have hcopy : TxData.copy (TxData.arbDeposit tx) c =
        some (TxData.arbDeposit (tx.copy c).1, (tx.copy c).2) := rfl
    have hpl : (tx.copy c).1.toPlain = tx.toPlain := by
      simp [ArbitrumDepositTx.copy, ArbitrumDepositTx.toPlain, copyCell,
        hci, hv]
    refine ⟨_, hcopy, by simp [TxData.toPlain, TxData.obs, hpl], rfl, rfl,
      ?_, ?_⟩
    · intro i hi
      simp [TxData.cellIds, ArbitrumDepositTx.cellIds,
        ArbitrumDepositTx.copy, copyCell] at hi ⊢
      rcases hi with h | h <;> omega
    · intro i hi hmem
      have hb := hlt i hmem
      simp [TxData.cellIds, ArbitrumDepositTx.cellIds,
        ArbitrumDepositTx.copy, copyCell] at hi ⊢
      rcases hi with h | h <;> omega
  | arbContract tx =>
    obtain ⟨ci, hci⟩ := Option.isSome_iff_exists.mp hbig.1
    obtain ⟨cap, hcap⟩ := Option.isSome_iff_exists.mp hbig.2.1
    obtain ⟨v, hv⟩ := Option.isSome_iff_exists.mp hbig.2.2
    have hcopy : TxData.copy (TxData.arbContract tx) c =
        some (TxData.arbContract (tx.copy c).1, (tx.copy c).2) := rfl
    have hpl : (tx.copy c).1.toPlain = tx.toPlain := by
      simp [ArbitrumContractTx.copy, ArbitrumContractTx.toPlain, copyCell,
        hci, hcap, hv]
    refine ⟨_, hcopy, by simp [TxData.toPlain, TxData.obs, hpl], rfl, ?_,
      ?_, ?_⟩
    · simp [TxData.optAddrFields, ArbitrumContractTx.copy]
    · intro i hi
      simp [TxData.cellIds, ArbitrumContractTx.cellIds,
        ArbitrumContractTx.copy, copyCell] at hi ⊢
      rcases hi with h | h | h | h <;> omega
    · intro i hi hmem
      have hb := hlt i hmem
      simp [TxData.cellIds, ArbitrumContractTx.cellIds,
        ArbitrumContractTx.copy, copyCell] at hi ⊢
      rcases hi with h | h | h | h <;> omega
  | arbRetry tx =>
    obtain ⟨ci, hci⟩ := Option.isSome_iff_exists.mp hbig.1
    obtain ⟨cap, hcap⟩ := Option.isSome_iff_exists.mp hbig.2.1
    obtain ⟨v, hv⟩ := Option.isSome_iff_exists.mp hbig.2.2.1
    obtain ⟨mr, hmr⟩ := Option.isSome_iff_exists.mp hbig.2.2.2.1
    obtain ⟨sfr, hsfr⟩ := Option.isSome_iff_exists.mp hbig.2.2.2.2
    have hcopy : TxData.copy (TxData.arbRetry tx) c =
        some (TxData.arbRetry (tx.copy c).1, (tx.copy c).2) := rfl
    have hpl : (tx.copy c).1.toPlain = tx.toPlain := by
      simp [ArbitrumRetryTx.copy, ArbitrumRetryTx.toPlain, copyCell,
        hci, hcap, hv, hmr, hsfr]
    refine ⟨_, hcopy, by simp [TxData.toPlain, TxData.obs, hpl], rfl, ?_,
      ?_, ?_⟩
    · simp [TxData.optAddrFields, ArbitrumRetryTx.copy]
    · intro i hi
      simp [TxData.cellIds, ArbitrumRetryTx.cellIds, ArbitrumRetryTx.copy, copyCell] at hi ⊢
      rcases hi with h | h | h | h | h | h <;> omega
    · intro i hi hmem
      have hb := hlt i hmem
      simp [TxData.cellIds, ArbitrumRetryTx.cellIds, ArbitrumRetryTx.copy, copyCell] at hi ⊢
      rcases hi with h | h | h | h | h | h <;> omega
  | arbSubmitRetryable tx =>
    obtain ⟨ci, hci⟩ := Option.isSome_iff_exists.mp hbig.1
    obtain ⟨l1, hl1⟩ := Option.isSome_iff_exists.mp hbig.2.1
    obtain ⟨dv, hdv⟩ := Option.isSome_iff_exists.mp hbig.2.2.1
    obtain ⟨cap, hcap⟩ := Option.isSome_iff_exists.mp hbig.2.2.2.1
    obtain ⟨rv, hrv⟩ := Option.isSome_iff_exists.mp hbig.2.2.2.2.1
    obtain ⟨msf, hmsf⟩ := Option.isSome_iff_exists.mp hbig.2.2.2.2.2
    have hcopy : TxData.copy (TxData.arbSubmitRetryable tx) c =
        some (TxData.arbSubmitRetryable (tx.copy c).1, (tx.copy c).2) := rfl
    have hpl : (tx.copy c).1.toPlain = tx.toPlain := by
      simp [ArbitrumSubmitRetryableTx.copy, ArbitrumSubmitRetryableTx.toPlain,
        copyCell, hci, hl1, hdv, hcap, hrv, hmsf]
    refine ⟨_, hcopy, by simp [TxData.toPlain, TxData.obs, hpl], rfl, ?_,
      ?_, ?_⟩
    · simp [TxData.optAddrFields, ArbitrumSubmitRetryableTx.copy]
    · intro i hi
      simp [TxData.cellIds, ArbitrumSubmitRetryableTx.cellIds,
        ArbitrumSubmitRetryableTx.copy, copyCell] at hi ⊢
      rcases hi with h | h | h | h | h | h | h <;> omega
    · intro i hi hmem
      have hb := hlt i hmem
      simp [TxData.cellIds, ArbitrumSubmitRetryableTx.cellIds,
        ArbitrumSubmitRetryableTx.copy, copyCell] at hi ⊢
      rcases hi with h | h | h | h | h | h | h <;> omega

/-- A concrete heap-model unsigned transaction with all big-integer
fields allocated at ids 0, 1, 2 and its byte buffer at id 3. -/
def unsignedHeapExample : ArbitrumUnsignedTx Cell Buf :=
  ⟨some (0, 5), 1, 2, some (1, 7), 21000, some 9, some (2, 3), (3, [1, 2])⟩

/-- Witness for C4 at `unsignedHeapExample` with allocation counter 4. -/
theorem copy_deep_copy_spec_witness :
    ∃ p : TxData Cell Buf × Nat,
      (TxData.arbUnsigned unsignedHeapExample).copy 4 = some p ∧
      (TxData.toPlain p.1).obs =
        (TxData.toPlain (TxData.arbUnsigned unsignedHeapExample)).obs ∧
      (TxData.toPlain p.1).mintField =
        (TxData.toPlain (TxData.arbUnsigned unsignedHeapExample)).mintField ∧
      p.1.optAddrFields =
        (TxData.arbUnsigned unsignedHeapExample).optAddrFields ∧
      (∀ i ∈ p.1.cellIds, 4 ≤ i ∧ i < p.2) ∧
      (∀ i ∈ p.1.cellIds, i ∉ (TxData.arbUnsigned unsignedHeapExample).cellIds) :=
  copy_deep_copy_spec (TxData.arbUnsigned unsignedHeapExample) 4
    ⟨rfl, rfl, rfl⟩ (by decide)
